import Mathlib

/-!
Verification of the SCORE2 cardiovascular risk calculator
(`src/utils/score2Calculator.js`), shallowly embedded over `ℝ`.

JavaScript numbers are modelled as real numbers, strings as `String`,
optional fields as `Option ℝ`.  `Math.log` is `Real.log`, `Math.exp` is
`Real.exp`, and `Math.round` is the Mathlib `round` (both round half away
from zero towards `+∞` on the values arising here: `round x = ⌊x + 1/2⌋`).
The JavaScript truthiness tests (`!params.age`, `params.hdlCholesterol ||
null`, `if (hdlChol)`) are translated as the corresponding zero /
emptiness tests.
-/

open Real

/-- Input parameter object of `calculateSCORE2Risk` (see the JSDoc of the
source file).  `sex`, `region`, `smoking`, `diabetes`, `cholesterolUnit`
are free-form strings, exactly as in the JavaScript, where any comparison
is a string equality test. -/
structure Params where
  age : ℝ
  sex : String
  region : String
  smoking : String
  systolicBP : ℝ
  totalCholesterol : ℝ
  cholesterolUnit : String
  hdlCholesterol : Option ℝ
  diabetes : String
  bmi : Option ℝ

/-- Result object returned by `calculateSCORE2Risk`. -/
structure RiskResult where
  riskPercentage : ℝ
  riskCategory : String
  heartAge : ℝ
  interpretation : String
  recommendations : List String
  algorithm : String

/-- Lines 21-28: total cholesterol after unit normalization
(`mg/dL` is divided by 38.67). -/
noncomputable def totalChol (p : Params) : ℝ :=
  if p.cholesterolUnit = "mg/dL" then p.totalCholesterol / 38.67
  else p.totalCholesterol

/-- Lines 23-27: `hdlChol = params.hdlCholesterol || null` (so an HDL value
of `0` becomes `null`), divided by 38.67 when the unit is `mg/dL`. -/
noncomputable def hdlChol (p : Params) : Option ℝ :=
  match p.hdlCholesterol with
  | none => none
  | some v =>
      if v = 0 then none
      else if p.cholesterolUnit = "mg/dL" then some (v / 38.67) else some v

/-- Line 31: `useScore2OP = params.age >= 70`. -/
def useScore2OP (p : Params) : Prop := 70 ≤ p.age

noncomputable instance (p : Params) : Decidable (useScore2OP p) :=
  inferInstanceAs (Decidable (70 ≤ p.age))

/-- Line 40: age component `Math.log(age/40)` times 0.8 for male and 0.7 otherwise. -/
noncomputable def ageComponent (p : Params) : ℝ :=
  Real.log (p.age / 40) * (if p.sex = "male" then 0.8 else 0.7)

/-- Line 44: sex component. -/
noncomputable def sexComponent (p : Params) : ℝ :=
  if p.sex = "male" then 0.5 else 0

/-- Line 48: smoking component. -/
noncomputable def smokingComponent (p : Params) : ℝ :=
  if p.smoking = "smoker" then 0.6 else 0

/-- Line 52: systolic blood pressure component. -/
noncomputable def bpComponent (p : Params) : ℝ :=
  Real.log (p.systolicBP / 120) * 0.4

/-- Line 56: total cholesterol component. -/
noncomputable def cholComponent (p : Params) : ℝ :=
  Real.log (totalChol p / 5.0) * 0.3

/-- Lines 59-63: the protective HDL component, added only when `hdlChol`
is truthy. -/
noncomputable def hdlComponent (p : Params) : ℝ :=
  match hdlChol p with
  | none => 0
  | some h => -Real.log (h / 1.3) * 0.2

/-- Lines 65-68: diabetes component. -/
noncomputable def diabetesComponent (p : Params) : ℝ :=
  if p.diabetes = "yes" then 0.4 else 0

/-- Lines 37-68: the accumulated additive risk score before the regional
and old-person calibration factors. -/
noncomputable def baseScore (p : Params) : ℝ :=
  ageComponent p + sexComponent p + smokingComponent p + bpComponent p +
    cholComponent p + hdlComponent p + diabetesComponent p

/-- Lines 71-78: `regionalFactors[params.region] || 1.0`. -/
noncomputable def regionalFactor (r : String) : ℝ :=
  if r = "low" then 0.7
  else if r = "moderate" then 1.0
  else if r = "high" then 1.4
  else if r = "very-high" then 1.8
  else 1.0

/-- Lines 79-84: the risk score after the regional factor and, for
SCORE2-OP, the extra 1.2 multiplier. -/
noncomputable def riskScore (p : Params) : ℝ :=
  baseScore p * regionalFactor p.region * (if useScore2OP p then 1.2 else 1)

/-- Line 88: baseline risk constant. -/
noncomputable def baselineRisk (p : Params) : ℝ :=
  if useScore2OP p then 0.15 else 0.08

/-- Line 89: `riskPercentage = (1 - exp(-exp(riskScore) * baselineRisk)) * 100`. -/
noncomputable def riskPercentageRaw (p : Params) : ℝ :=
  (1 - Real.exp (-Real.exp (riskScore p) * baselineRisk p)) * 100

/-- Line 92: `riskPercentage = Math.max(0.1, Math.min(50, riskPercentage))`. -/
noncomputable def riskPercentageClamped (p : Params) : ℝ :=
  max 0.1 (min 50 (riskPercentageRaw p))

/-- Lines 119-131: `categorizeRisk`. -/
noncomputable def categorizeRisk (riskPercentage age : ℝ) : String :=
  if age < 50 then
    if riskPercentage < 2.5 then "low"
    else if riskPercentage < 7.5 then "moderate"
    else if riskPercentage < 10 then "high"
    else "very-high"
  else
    if riskPercentage < 5 then "low"
    else if riskPercentage < 10 then "moderate"
    else if riskPercentage < 15 then "high"
    else "very-high"

/-- Lines 147-204 of `calculateHeartAge`: the reference risk score.  The
reference parameters share `age`, `sex`, `region`, `cholesterolUnit` and
`hdlCholesterol` with the input; the smoking component is the literal `0`,
the blood pressure component the literal `Math.log(120/120) * 0.4`, the
cholesterol component the literal `Math.log(5.0/5.0) * 0.3` and no
diabetes term is added. -/
noncomputable def referenceRiskScore (p : Params) : ℝ :=
  (ageComponent p + sexComponent p + 0 + Real.log ((120:ℝ) / 120) * 0.4 +
      Real.log ((5.0:ℝ) / 5.0) * 0.3 + hdlComponent p) *
    regionalFactor p.region * (if useScore2OP p then 1.2 else 1)

/-- Lines 206-208: reference risk percentage before clamping. -/
noncomputable def referenceRiskRaw (p : Params) : ℝ :=
  (1 - Real.exp (-Real.exp (referenceRiskScore p) * baselineRisk p)) * 100

/-- Line 211: clamped reference risk percentage. -/
noncomputable def referenceRiskClamped (p : Params) : ℝ :=
  max 0.1 (min 50 (referenceRiskRaw p))

/-- Line 214: `riskRatio = riskPercentage / referenceRiskPercentage`
(the main argument is the clamped, unrounded percentage of line 92). -/
noncomputable def riskQuot (p : Params) : ℝ :=
  riskPercentageClamped p / referenceRiskClamped p

/-- Lines 215-217: `heartAge = Math.round(age + (riskRatio - 1) * 10)`,
then `Math.max(age, Math.min(100, heartAge))`. -/
noncomputable def heartAge (p : Params) : ℝ :=
  max p.age (min 100 ((round (p.age + (riskQuot p - 1) * 10) : ℤ) : ℝ))

/-- Lines 227-230: smoking recommendations. -/
noncomputable def smokingRecs (p : Params) : List String :=
  if p.smoking = "smoker" then
    ["Quit smoking - this is the single most important step to reduce your cardiovascular risk",
     "Consider nicotine replacement therapy or consult your doctor about smoking cessation aids"]
  else []

/-- Lines 233-239: blood pressure recommendations. -/
noncomputable def bpRecs (p : Params) : List String :=
  if p.systolicBP > 140 then
    ["Discuss blood pressure management with your doctor",
     "Reduce salt intake and increase physical activity",
     "Consider antihypertensive medication if lifestyle changes are insufficient"]
  else if p.systolicBP > 130 then
    ["Monitor blood pressure regularly and maintain a healthy lifestyle"]
  else []

/-- Lines 242-249: cholesterol recommendations; `totalCholMmol` of lines
242-243 is recomputed with exactly the formula of `totalChol`. -/
noncomputable def cholRecs (p : Params) : List String :=
  if totalChol p > 5.5 then
    ["Discuss cholesterol management with your doctor",
     "Follow a Mediterranean-style diet rich in fruits, vegetables, and healthy fats",
     "Consider statin therapy if dietary changes are insufficient"]
  else []

/-- Lines 252-256: diabetes recommendations. -/
noncomputable def diabetesRecs (p : Params) : List String :=
  if p.diabetes = "yes" then
    ["Maintain optimal blood glucose control",
     "Regular monitoring of HbA1c levels",
     "Consider additional cardiovascular protection medications"]
  else []

/-- Lines 259-264: general lifestyle recommendations for the moderate,
high and very-high categories. -/
noncomputable def generalRecs (riskCategory : String) : List String :=
  if riskCategory = "moderate" ∨ riskCategory = "high" ∨ riskCategory = "very-high" then
    ["Engage in regular physical activity (at least 150 minutes of moderate exercise per week)",
     "Maintain a healthy weight (BMI 18.5-24.9)",
     "Limit alcohol consumption",
     "Consider low-dose aspirin therapy (consult your doctor)"]
  else []

/-- Lines 267-271: low risk recommendations. -/
noncomputable def lowRiskRecs (riskCategory : String) : List String :=
  if riskCategory = "low" then
    ["Maintain your current healthy lifestyle",
     "Continue regular physical activity and healthy diet",
     "Regular health check-ups every 2-3 years"]
  else []

/-- Lines 223-274: `generateRecommendations`, pushes in source order. -/
noncomputable def generateRecommendations (p : Params) (riskCategory : String) :
    List String :=
  smokingRecs p ++ bpRecs p ++ cholRecs p ++ diabetesRecs p ++
    generalRecs riskCategory ++ lowRiskRecs riskCategory

/-- Lines 279-284: `generateInterpretation`; the interpolated
`Math.round(riskPercentage)` is an integer, printed by `toString`. -/
noncomputable def generateInterpretation (riskPercentage : ℝ) (sex : String) :
    String :=
  "This means out of 100 " ++ (if sex = "male" then "men" else "women") ++
    " like you, about " ++ toString (round riskPercentage) ++
    " will have a heart attack or stroke in the next 10 years."

/-- Lines 20-114: `calculateSCORE2Risk`.  The reported `riskPercentage` is
`Math.round(riskPercentage * 10) / 10` of the clamped value; category,
heart age and interpretation are computed from the clamped, unrounded
value. -/
noncomputable def calculateSCORE2Risk (p : Params) : RiskResult where
  riskPercentage := ((round (riskPercentageClamped p * 10) : ℤ) : ℝ) / 10
  riskCategory := categorizeRisk (riskPercentageClamped p) p.age
  heartAge := heartAge p
  interpretation := generateInterpretation (riskPercentageClamped p) p.sex
  recommendations :=
    generateRecommendations p (categorizeRisk (riskPercentageClamped p) p.age)
  algorithm := if useScore2OP p then "SCORE2-OP" else "SCORE2"

/-- Lines 289-317: `validateSCORE2Inputs`.  Each JavaScript truthiness
test `!x` on a number is the test `x = 0`, and on a string the test
`x = ""`. -/
noncomputable def validateSCORE2Inputs (p : Params) : List String :=
  (if p.age = 0 ∨ p.age < 40 ∨ p.age > 100 then
    ["Age must be between 40 and 100 years"] else []) ++
  (if p.sex = "" ∨ ¬(p.sex = "male" ∨ p.sex = "female") then
    ["Sex must be specified as male or female"] else []) ++
  (if p.region = "" ∨
      ¬(p.region = "low" ∨ p.region = "moderate" ∨ p.region = "high" ∨
        p.region = "very-high") then
    ["Risk region must be specified"] else []) ++
  (if p.smoking = "" ∨ ¬(p.smoking = "smoker" ∨ p.smoking = "non-smoker") then
    ["Smoking status must be specified"] else []) ++
  (if p.systolicBP = 0 ∨ p.systolicBP < 80 ∨ p.systolicBP > 250 then
    ["Systolic blood pressure must be between 80 and 250 mmHg"] else []) ++
  (if p.totalCholesterol = 0 ∨ p.totalCholesterol ≤ 0 then
    ["Total cholesterol must be specified and greater than 0"] else [])

/-- The input constraints enforced by `validateSCORE2Inputs`: age in
[40,100], sex, region and smoking in their enumerations, systolic blood
pressure in [80,250], positive total cholesterol. -/
def Valid (p : Params) : Prop :=
  40 ≤ p.age ∧ p.age ≤ 100 ∧
  (p.sex = "male" ∨ p.sex = "female") ∧
  (p.region = "low" ∨ p.region = "moderate" ∨ p.region = "high" ∨
    p.region = "very-high") ∧
  (p.smoking = "smoker" ∨ p.smoking = "non-smoker") ∧
  80 ≤ p.systolicBP ∧ p.systolicBP ≤ 250 ∧
  0 < p.totalCholesterol

/-- Stage F of the specification, used to compare against the code: the
reference risk percentage obtained by recomputing stages A-D (including
unit normalization under the `cholesterolUnit` of the input) on a reference
parameter set equal to the input but with non-smoker, systolic blood
pressure 120, total cholesterol 5.0 and no diabetes. -/
noncomputable def specReferenceRiskPct (p : Params) : ℝ :=
  riskPercentageClamped
    { p with smoking := "non-smoker", systolicBP := 120,
             totalCholesterol := 5.0, diabetes := "no" }

/-- Stage F of the specification: the heart age computed from the
spec-described reference risk percentage. -/
noncomputable def specHeartAge (p : Params) : ℝ :=
  max p.age (min 100
    ((round (p.age + (riskPercentageClamped p / specReferenceRiskPct p - 1) * 10) : ℤ) : ℝ))

/-- The interpretation sentence described by the specification reading in
which the interpolated count is recomputed from the reported
`riskPercentage` field (the value already rounded to one decimal). -/
noncomputable def specInterpretation (p : Params) : String :=
  "This means out of 100 " ++ (if p.sex = "male" then "men" else "women") ++
    " like you, about " ++ toString (round ((calculateSCORE2Risk p).riskPercentage)) ++
    " will have a heart attack or stroke in the next 10 years."

/-- Concrete family of inputs for the C2 counterexample: a low-risk
profile whose accumulated pre-regional score is negative. -/
def pC2 (r : String) : Params :=
  ⟨40, "female", r, "non-smoker", 120, 0.001, "mmol/L", none, "no", none⟩
/-- Concrete family of inputs for the C3 counterexample: a very-high
region non-smoking female with systolic pressure 120 and total
cholesterol 1/1024 mmol/L, parametrized by age. -/
def pC3 (a : ℝ) : Params :=
  ⟨a, "female", "very-high", "non-smoker", 120, 0.0009765625, "mmol/L", none, "no", none⟩
/-- C4 counterexample: for an 80-year-old male in a moderate region with
very high cholesterol (5120 mmol/L, a valid input since validation puts
no upper bound on cholesterol), both the smoker and the non-smoker
profile clamp to the 50 cap, so switching to non-smoker does not strictly
decrease the returned riskPercentage. -/
def pC4 (s : String) : Params :=
  ⟨80, "male", "moderate", s, 120, 5120, "mmol/L", none, "no", none⟩
/-- Concrete input for the C5 counterexample: cholesterol given in mg/dL,
193.35 mg/dL normalizing to exactly 5 mmol/L. -/
def pC5 : Params :=
  ⟨40, "female", "moderate", "non-smoker", 120, 193.35, "mg/dL", none, "no", none⟩
/-- The reference parameter set of the specification for `pC5`, written out. -/
def pC5ref : Params :=
  ⟨40, "female", "moderate", "non-smoker", 120, 5.0, "mg/dL", none, "no", none⟩
/-- Concrete input of the end-to-end example in the spec. -/
def pC6 : Params :=
  ⟨55, "male", "moderate", "non-smoker", 130, 5, "mmol/L", none, "no", none⟩
/-- Concrete input for the C7 counterexample, placing the clamped risk in
[2.46, 2.49) so that the reported one-decimal value 2.5 rounds to 3 while
the unrounded value rounds to 2. -/
def pC7 : Params :=
  ⟨40, "female", "moderate", "non-smoker", 120, 0.1045, "mmol/L", none, "no", none⟩

section RoundLemmas

/-- `round` is monotone. -/
lemma round_mono_le {x y : ℝ} (h : x ≤ y) : round x ≤ round y := by
  rw [round_eq, round_eq]
  exact Int.floor_le_floor (by linarith)

lemma le_round_of_le {n : ℤ} {x : ℝ} (h : (n : ℝ) ≤ x + 1 / 2) : n ≤ round x := by
  rw [round_eq]
  exact Int.le_floor.mpr h

lemma round_le_of_lt {n : ℤ} {x : ℝ} (h : x + 1 / 2 < (n : ℝ) + 1) : round x ≤ n := by
  rw [round_eq]
  have : ⌊x + 1 / 2⌋ < n + 1 := Int.floor_lt.mpr (by push_cast; linarith)
  omega

lemma round_eq_of_mem {n : ℤ} {x : ℝ} (h1 : (n : ℝ) ≤ x + 1 / 2)
    (h2 : x + 1 / 2 < (n : ℝ) + 1) : round x = n :=
  le_antisymm (round_le_of_lt h2) (le_round_of_le h1)

end RoundLemmas

section NumericToolkit

/-- Upper bound on `exp` at a rational point, reduced to an exact rational
power comparison against the decimal upper bound for `e`. -/
lemma exp_rat_lt (p q : ℕ) (d : ℝ) (hp : 0 < p) (hq : 0 < q) (hd : 0 ≤ d)
    (h : (2.7182818286:ℝ) ^ p ≤ d ^ q) : Real.exp ((p : ℝ) / q) < d := by
  have h1 : Real.exp ((p : ℝ) / q) ^ q = Real.exp p := by
    rw [← Real.exp_nat_mul]
    congr 1
    field_simp
  have h2 : Real.exp (p : ℝ) = Real.exp 1 ^ p := by
    rw [← Real.exp_nat_mul, mul_one]
  have h3 : Real.exp 1 ^ p < (2.7182818286:ℝ) ^ p :=
    pow_lt_pow_left₀ Real.exp_one_lt_d9 (le_of_lt (Real.exp_pos 1)) hp.ne'
  have h4 : Real.exp ((p : ℝ) / q) ^ q < d ^ q := by
    rw [h1, h2]; exact lt_of_lt_of_le h3 h
  exact lt_of_pow_lt_pow_left₀ q hd h4

/-- Lower bound on `exp` at a rational point, reduced to an exact rational
power comparison against the decimal lower bound for `e`. -/
lemma rat_lt_exp (p q : ℕ) (d : ℝ) (hp : 0 < p) (hq : 0 < q)
    (h : d ^ q ≤ (2.7182818283:ℝ) ^ p) : d < Real.exp ((p : ℝ) / q) := by
  have h1 : Real.exp ((p : ℝ) / q) ^ q = Real.exp p := by
    rw [← Real.exp_nat_mul]
    congr 1
    field_simp
  have h2 : Real.exp (p : ℝ) = Real.exp 1 ^ p := by
    rw [← Real.exp_nat_mul, mul_one]
  have h3 : (2.7182818283:ℝ) ^ p < Real.exp 1 ^ p :=
    pow_lt_pow_left₀ Real.exp_one_gt_d9 (by norm_num) hp.ne'
  have h4 : d ^ q < Real.exp ((p : ℝ) / q) ^ q := by
    rw [h1, h2]; exact lt_of_le_of_lt h h3
  exact lt_of_pow_lt_pow_left₀ q (le_of_lt (Real.exp_pos _)) h4

/-- `1 - exp (-t) ≤ t` for every `t`. -/
lemma one_sub_exp_neg_le_self (t : ℝ) : 1 - Real.exp (-t) ≤ t := by
  have := Real.add_one_le_exp (-t)
  linarith

/-- `t / (1 + t) ≤ 1 - exp (-t)` for nonnegative `t`. -/
lemma div_le_one_sub_exp_neg {t : ℝ} (ht : 0 ≤ t) :
    t / (1 + t) ≤ 1 - Real.exp (-t) := by
  have h1 : t + 1 ≤ Real.exp t := Real.add_one_le_exp t
  have hpos : (0:ℝ) < 1 + t := by linarith
  have hexp : (0:ℝ) < Real.exp t := Real.exp_pos t
  have h2 : Real.exp (-t) ≤ (1 + t)⁻¹ := by
    rw [Real.exp_neg]
    exact inv_anti₀ hpos (by linarith)
  have h3 : (1:ℝ) - (1 + t)⁻¹ = t / (1 + t) := by
    field_simp
  linarith [h3 ▸ sub_le_sub_left h2 1]

/-- Degree-three Taylor enclosure of `exp (-t)` on `[0, 1]`, with error
`5 t⁴ / 96`, derived from `Real.exp_bound`. -/
lemma exp_neg_taylor {t : ℝ} (h0 : 0 ≤ t) (h1 : t ≤ 1) :
    1 - t + t ^ 2 / 2 - t ^ 3 / 6 - 5 * t ^ 4 / 96 ≤ Real.exp (-t) ∧
      Real.exp (-t) ≤ 1 - t + t ^ 2 / 2 - t ^ 3 / 6 + 5 * t ^ 4 / 96 := by
  have habs : |(-t : ℝ)| ≤ 1 := by rw [abs_neg, abs_of_nonneg h0]; exact h1
  have hb := Real.exp_bound habs (n := 4) (by norm_num)
  have hsum : ∑ m ∈ Finset.range 4, (-t) ^ m / (m.factorial : ℝ) =
      1 - t + t ^ 2 / 2 - t ^ 3 / 6 := by
    simp [Finset.sum_range_succ, Nat.factorial]
    ring
  have herr : |(-t : ℝ)| ^ 4 * ((4:ℕ).succ / ((4:ℕ).factorial * (4:ℕ))) =
      5 * t ^ 4 / 96 := by
    rw [abs_neg, abs_of_nonneg h0]
    norm_num [Nat.factorial]
    ring
  rw [hsum, herr] at hb
  have := abs_le.mp hb
  exact ⟨by linarith [this.1], by linarith [this.2]⟩

end NumericToolkit

section MonotonicityLemmas

/-- The percentage transform `s ↦ (1 - exp (-exp s * b)) * 100` is monotone
in the score `s` when the baseline `b` is nonnegative. -/
lemma riskTransform_mono {b s t : ℝ} (hb : 0 ≤ b) (h : s ≤ t) :
    (1 - Real.exp (-Real.exp s * b)) * 100 ≤
      (1 - Real.exp (-Real.exp t * b)) * 100 := by
  have h1 : Real.exp s * b ≤ Real.exp t * b :=
    mul_le_mul_of_nonneg_right (Real.exp_le_exp.mpr h) hb
  have h2 : Real.exp (-Real.exp t * b) ≤ Real.exp (-Real.exp s * b) :=
    Real.exp_le_exp.mpr (by linarith)
  linarith

/-- Strict version of `riskTransform_mono` for positive baseline. -/
lemma riskTransform_strictMono {b s t : ℝ} (hb : 0 < b) (h : s < t) :
    (1 - Real.exp (-Real.exp s * b)) * 100 <
      (1 - Real.exp (-Real.exp t * b)) * 100 := by
  have h1 : Real.exp s * b < Real.exp t * b :=
    mul_lt_mul_of_pos_right (Real.exp_lt_exp.mpr h) hb
  have h2 : Real.exp (-Real.exp t * b) < Real.exp (-Real.exp s * b) :=
    Real.exp_lt_exp.mpr (by linarith)
  linarith

/-- The clamp to `[0.1, 50]` is monotone. -/
lemma clamp_mono {x y : ℝ} (h : x ≤ y) :
    max 0.1 (min 50 x) ≤ max 0.1 (min 50 y) :=
  max_le_max le_rfl (min_le_min le_rfl h)

/-- The baseline risk constant is positive. -/
lemma baselineRisk_pos (p : Params) : 0 < baselineRisk p := by
  unfold baselineRisk
  split <;> norm_num

/-- The regional factor is positive for every region string. -/
lemma regionalFactor_pos (r : String) : 0 < regionalFactor r := by
  unfold regionalFactor
  repeat' split
  all_goals norm_num

/-- The reported (rounded) percentage is monotone in the clamped
percentage. -/
lemma reported_mono {p q : Params}
    (h : riskPercentageClamped p ≤ riskPercentageClamped q) :
    (calculateSCORE2Risk p).riskPercentage ≤
      (calculateSCORE2Risk q).riskPercentage := by
  show ((round (riskPercentageClamped p * 10) : ℤ) : ℝ) / 10 ≤
    ((round (riskPercentageClamped q * 10) : ℤ) : ℝ) / 10
  have := round_mono_le (mul_le_mul_of_nonneg_right h (by norm_num : (0:ℝ) ≤ 10))
  have hc : ((round (riskPercentageClamped p * 10) : ℤ) : ℝ) ≤
      ((round (riskPercentageClamped q * 10) : ℤ) : ℝ) := by exact_mod_cast this
  linarith

/-- The raw percentage is monotone in the risk score when baselines
agree. -/
lemma riskPercentageRaw_mono {p q : Params} (hb : baselineRisk p = baselineRisk q)
    (h : riskScore p ≤ riskScore q) :
    riskPercentageRaw p ≤ riskPercentageRaw q := by
  unfold riskPercentageRaw
  rw [hb]
  exact riskTransform_mono (le_of_lt (baselineRisk_pos q)) h

end MonotonicityLemmas

/-- C1: for every valid input the reported `riskPercentage` lies between
0.1 and 50 and is exactly the clamped raw percentage rounded to one
decimal place. -/
theorem C1_riskPercentage_bounded_and_rounded (p : Params) (hv : Valid p) :
    0.1 ≤ (calculateSCORE2Risk p).riskPercentage ∧
      (calculateSCORE2Risk p).riskPercentage ≤ 50 ∧
      (calculateSCORE2Risk p).riskPercentage =
        ((round (max 0.1 (min 50 (riskPercentageRaw p)) * 10) : ℤ) : ℝ) / 10 := by
  have hc1 : 0.1 ≤ riskPercentageClamped p := le_max_left _ _
  have hc2 : riskPercentageClamped p ≤ 50 :=
    max_le (by norm_num) (min_le_left _ _)
  have hlo : (1 : ℤ) ≤ round (riskPercentageClamped p * 10) :=
    le_round_of_le (by push_cast; nlinarith)
  have hhi : round (riskPercentageClamped p * 10) ≤ 500 :=
    round_le_of_lt (by push_cast; nlinarith)
  refine ⟨?_, ?_, rfl⟩
  · show 0.1 ≤ ((round (riskPercentageClamped p * 10) : ℤ) : ℝ) / 10
    have : (1 : ℝ) ≤ ((round (riskPercentageClamped p * 10) : ℤ) : ℝ) := by
      exact_mod_cast hlo
    linarith
  · show ((round (riskPercentageClamped p * 10) : ℤ) : ℝ) / 10 ≤ 50
    have : ((round (riskPercentageClamped p * 10) : ℤ) : ℝ) ≤ 500 := by
      exact_mod_cast hhi
    linarith

/-- Witness for C1 at a concrete valid input. -/
theorem C1_riskPercentage_bounded_and_rounded_witness :
    0.1 ≤ (calculateSCORE2Risk
      ⟨55, "male", "moderate", "non-smoker", 130, 5, "mmol/L", none, "no", none⟩).riskPercentage := by
  refine (C1_riskPercentage_bounded_and_rounded _ ?_).1
  refine ⟨by norm_num, by norm_num, Or.inl rfl, Or.inr (Or.inl rfl), Or.inr rfl,
    by norm_num, by norm_num, by norm_num⟩

section LogConstants

lemma log_five_gt : (1.605:ℝ) < Real.log 5 := by
  have h := exp_rat_lt 321 200 5 (by norm_num) (by norm_num) (by norm_num) (by norm_num)
  have hc : ((321:ℕ) : ℝ) / ((200:ℕ) : ℝ) = 1.605 := by norm_num
  rw [hc] at h
  exact (Real.lt_log_iff_exp_lt (by norm_num)).mpr h

lemma log_five_lt : Real.log 5 < 1.61 := by
  have h := rat_lt_exp 161 100 5 (by norm_num) (by norm_num) (by norm_num)
  have hc : ((161:ℕ) : ℝ) / ((100:ℕ) : ℝ) = 1.61 := by norm_num
  rw [hc] at h
  exact (Real.log_lt_iff_lt_exp (by norm_num)).mpr h

lemma log_5000_eq : Real.log 5000 = 3 * Real.log 2 + 4 * Real.log 5 := by
  have h : (5000:ℝ) = 2 ^ 3 * 5 ^ 4 := by norm_num
  rw [h, Real.log_mul (by norm_num) (by norm_num), Real.log_pow, Real.log_pow]
  push_cast
  ring

lemma log_5000_ge : (8.499:ℝ) ≤ Real.log 5000 := by
  rw [log_5000_eq]
  have h2 := Real.log_two_gt_d9
  have h5 := log_five_gt
  linarith

lemma log_5000_le : Real.log 5000 ≤ 8.52 := by
  rw [log_5000_eq]
  have h2 := Real.log_two_lt_d9
  have h5 := log_five_lt
  linarith

lemma inv_lt_inv_of_pos_lt {a b : ℝ} (ha : 0 < a) (h : a < b) : b⁻¹ < a⁻¹ :=
  inv_strictAnti₀ ha h

end LogConstants

/-- Replacing the region leaves the pre-regional score unchanged. -/
lemma baseScore_set_region (p : Params) (r : String) :
    baseScore { p with region := r } = baseScore p := rfl

/-- Replacing the region leaves the baseline risk constant unchanged. -/
lemma baselineRisk_set_region (p : Params) (r : String) :
    baselineRisk { p with region := r } = baselineRisk p := rfl

/-- The risk score after replacing the region. -/
lemma riskScore_set_region (p : Params) (r : String) :
    riskScore { p with region := r } =
      baseScore p * regionalFactor r * (if useScore2OP p then 1.2 else 1) := rfl

lemma pC2_base (r : String) : baseScore (pC2 r) = -(Real.log 5000 * 0.3) := by
  simp [baseScore, ageComponent, sexComponent, smokingComponent, bpComponent,
    cholComponent, hdlComponent, diabetesComponent, totalChol, hdlChol, pC2,
    show (40:ℝ)/40 = 1 from by norm_num, show (120:ℝ)/120 = 1 from by norm_num]
  rw [show (0.001:ℝ)/5.0 = (5000:ℝ)⁻¹ from by norm_num, Real.log_inv]
  ring

lemma pC2_score (r : String) :
    riskScore (pC2 r) = -(Real.log 5000 * 0.3) * regionalFactor r := by
  rw [show pC2 r = { pC2 r with region := r } from rfl, riskScore_set_region,
    baseScore_set_region, pC2_base]
  rw [if_neg (show ¬useScore2OP (pC2 r) from by norm_num [useScore2OP, pC2]), mul_one]

lemma pC2_baseline (r : String) : baselineRisk (pC2 r) = 0.08 := by
  unfold baselineRisk
  rw [if_neg (show ¬useScore2OP (pC2 r) from by norm_num [useScore2OP, pC2])]

/-- C2 counterexample: with all other parameters identical (a 40-year-old
non-smoking female with systolic pressure 120 and total cholesterol 0.001
mmol/L, a valid input), the very-high-region risk 0.1 is strictly below
the high-region risk, contradicting the claimed ordering. -/
theorem C2_counterexample :
    (calculateSCORE2Risk (pC2 "very-high")).riskPercentage <
      (calculateSCORE2Risk (pC2 "high")).riskPercentage := by
  have hL0 := log_5000_ge
  have hL1 := log_5000_le
  -- very-high side reports exactly 0.1
  have hfvh : regionalFactor "very-high" = 1.8 := by simp [regionalFactor]
  have hSvh : riskScore (pC2 "very-high") ≤ -4.57 := by
    rw [pC2_score, hfvh]; linarith
  have e457 : (80:ℝ) < Real.exp 4.57 := by
    have h := rat_lt_exp 457 100 80 (by norm_num) (by norm_num) (by norm_num)
    have hc : ((457:ℕ) : ℝ) / ((100:ℕ) : ℝ) = 4.57 := by norm_num
    rwa [hc] at h
  have hexpvh : Real.exp (riskScore (pC2 "very-high")) < 1 / 80 := by
    have h1 : Real.exp (riskScore (pC2 "very-high")) ≤ Real.exp (-(4.57:ℝ)) :=
      Real.exp_le_exp.mpr (by linarith)
    have h2 : Real.exp (-(4.57:ℝ)) = (Real.exp 4.57)⁻¹ := Real.exp_neg _
    have h3 : (Real.exp 4.57)⁻¹ < (80:ℝ)⁻¹ :=
      inv_lt_inv_of_pos_lt (by norm_num) e457
    rw [h2] at h1
    calc Real.exp (riskScore (pC2 "very-high")) ≤ (Real.exp 4.57)⁻¹ := h1
      _ < (80:ℝ)⁻¹ := h3
      _ = 1 / 80 := by norm_num
  have hrawvh : riskPercentageRaw (pC2 "very-high") ≤ 0.1 := by
    unfold riskPercentageRaw
    rw [pC2_baseline]
    have ht := one_sub_exp_neg_le_self (Real.exp (riskScore (pC2 "very-high")) * 0.08)
    have hrw : -Real.exp (riskScore (pC2 "very-high")) * 0.08 =
        -(Real.exp (riskScore (pC2 "very-high")) * 0.08) := by ring
    rw [hrw]
    nlinarith [Real.exp_pos (riskScore (pC2 "very-high"))]
  have hclvh : riskPercentageClamped (pC2 "very-high") = 0.1 := by
    unfold riskPercentageClamped
    rw [min_eq_right (le_trans hrawvh (by norm_num))]
    exact max_eq_left hrawvh
  have hrepvh : (calculateSCORE2Risk (pC2 "very-high")).riskPercentage = 0.1 := by
    show ((round (riskPercentageClamped (pC2 "very-high") * 10) : ℤ) : ℝ) / 10 = 0.1
    rw [hclvh, show (0.1:ℝ) * 10 = 1 by norm_num]
    rw [round_eq_of_mem (n := 1) (by norm_num) (by norm_num)]
    norm_num
  -- high side reports at least 0.2
  have hfh : regionalFactor "high" = 1.4 := by simp [regionalFactor]
  have hSh : (-3.58:ℝ) ≤ riskScore (pC2 "high") := by
    rw [pC2_score, hfh]; linarith
  have hSh0 : riskScore (pC2 "high") ≤ 0 := by
    rw [pC2_score, hfh]; linarith
  have e358 : Real.exp 3.58 < 36 := by
    have h := exp_rat_lt 358 100 36 (by norm_num) (by norm_num) (by norm_num) (by norm_num)
    have hc : ((358:ℕ) : ℝ) / ((100:ℕ) : ℝ) = 3.58 := by norm_num
    rwa [hc] at h
  have hexph : (1:ℝ) / 36 < Real.exp (riskScore (pC2 "high")) := by
    have h1 : Real.exp (-(3.58:ℝ)) ≤ Real.exp (riskScore (pC2 "high")) :=
      Real.exp_le_exp.mpr (by linarith)
    have h2 : (36:ℝ)⁻¹ < (Real.exp 3.58)⁻¹ :=
      inv_lt_inv_of_pos_lt (Real.exp_pos _) e358
    have h3 : Real.exp (-(3.58:ℝ)) = (Real.exp 3.58)⁻¹ := Real.exp_neg _
    calc (1:ℝ) / 36 = (36:ℝ)⁻¹ := by norm_num
      _ < (Real.exp 3.58)⁻¹ := h2
      _ = Real.exp (-(3.58:ℝ)) := h3.symm
      _ ≤ Real.exp (riskScore (pC2 "high")) := h1
  have hrawh : (0.22:ℝ) ≤ riskPercentageRaw (pC2 "high") := by
    unfold riskPercentageRaw
    rw [pC2_baseline]
    have hrw : -Real.exp (riskScore (pC2 "high")) * 0.08 =
        -(Real.exp (riskScore (pC2 "high")) * 0.08) := by ring
    rw [hrw]
    have ht : (1:ℝ) / 450 ≤ Real.exp (riskScore (pC2 "high")) * 0.08 := by linarith
    have h1 : Real.exp (-(Real.exp (riskScore (pC2 "high")) * 0.08)) ≤
        Real.exp (-((1:ℝ) / 450)) := Real.exp_le_exp.mpr (by linarith)
    have h2 := div_le_one_sub_exp_neg (t := (1:ℝ)/450) (by norm_num)
    have h3 : ((1:ℝ)/450) / (1 + 1/450) = 1 / 451 := by norm_num
    rw [h3] at h2
    nlinarith
  have hrawh_hi : riskPercentageRaw (pC2 "high") ≤ 8 := by
    unfold riskPercentageRaw
    rw [pC2_baseline]
    have hexple : Real.exp (riskScore (pC2 "high")) ≤ 1 := by
      calc Real.exp (riskScore (pC2 "high")) ≤ Real.exp 0 :=
            Real.exp_le_exp.mpr hSh0
        _ = 1 := Real.exp_zero
    have hrw : -Real.exp (riskScore (pC2 "high")) * 0.08 =
        -(Real.exp (riskScore (pC2 "high")) * 0.08) := by ring
    rw [hrw]
    have ht := one_sub_exp_neg_le_self (Real.exp (riskScore (pC2 "high")) * 0.08)
    nlinarith [Real.exp_pos (riskScore (pC2 "high"))]
  have hclh : riskPercentageClamped (pC2 "high") = riskPercentageRaw (pC2 "high") := by
    unfold riskPercentageClamped
    rw [min_eq_right (by linarith)]
    exact max_eq_right (by linarith)
  have hreph : (0.2:ℝ) ≤ (calculateSCORE2Risk (pC2 "high")).riskPercentage := by
    show (0.2:ℝ) ≤ ((round (riskPercentageClamped (pC2 "high") * 10) : ℤ) : ℝ) / 10
    have h2 : (2:ℤ) ≤ round (riskPercentageClamped (pC2 "high") * 10) := by
      apply le_round_of_le
      rw [hclh]
      push_cast
      linarith
    have : (2:ℝ) ≤ ((round (riskPercentageClamped (pC2 "high") * 10) : ℤ) : ℝ) := by
      exact_mod_cast h2
    linarith
  rw [hrepvh]
  linarith

/-- C2 (amended): when the accumulated pre-regional score is nonnegative,
the reported risk is monotone in the regional factor, so
risk(very-high) ≥ risk(high) ≥ risk(moderate) ≥ risk(low) for otherwise
identical parameters. -/
theorem C2_region_ordering_amended (p : Params) (h : 0 ≤ baseScore p) :
    (calculateSCORE2Risk { p with region := "high" }).riskPercentage ≤
      (calculateSCORE2Risk { p with region := "very-high" }).riskPercentage ∧
    (calculateSCORE2Risk { p with region := "moderate" }).riskPercentage ≤
      (calculateSCORE2Risk { p with region := "high" }).riskPercentage ∧
    (calculateSCORE2Risk { p with region := "low" }).riskPercentage ≤
      (calculateSCORE2Risk { p with region := "moderate" }).riskPercentage := by
  have key : ∀ r1 r2 : String, regionalFactor r1 ≤ regionalFactor r2 →
      (calculateSCORE2Risk { p with region := r1 }).riskPercentage ≤
        (calculateSCORE2Risk { p with region := r2 }).riskPercentage := by
    intro r1 r2 hf
    apply reported_mono
    apply clamp_mono
    have hbl : baselineRisk { p with region := r1 } =
        baselineRisk { p with region := r2 } := by
      rw [baselineRisk_set_region p r1, baselineRisk_set_region p r2]
    apply riskPercentageRaw_mono hbl
    rw [riskScore_set_region, riskScore_set_region]
    have hc0 : (0:ℝ) ≤ (if useScore2OP p then 1.2 else 1) := by
      split <;> norm_num
    exact mul_le_mul_of_nonneg_right (mul_le_mul_of_nonneg_left hf h) hc0
  refine ⟨key _ _ ?_, key _ _ ?_, key _ _ ?_⟩ <;>
    simp [regionalFactor] <;> norm_num

/-- Witness for the amended C2 at a concrete input with nonnegative
pre-regional score. -/
theorem C2_region_ordering_amended_witness :
    0 ≤ baseScore ⟨40, "male", "low", "non-smoker", 120, 5, "mmol/L", none, "no", none⟩ ∧
    (calculateSCORE2Risk { (⟨40, "male", "low", "non-smoker", 120, 5, "mmol/L", none, "no", none⟩ : Params) with
        region := "high" }).riskPercentage ≤
      (calculateSCORE2Risk { (⟨40, "male", "low", "non-smoker", 120, 5, "mmol/L", none, "no", none⟩ : Params) with
        region := "very-high" }).riskPercentage := by
  have hb : 0 ≤ baseScore
      ⟨40, "male", "low", "non-smoker", 120, 5, "mmol/L", none, "no", none⟩ := by
    simp [baseScore, ageComponent, sexComponent, smokingComponent, bpComponent,
      cholComponent, hdlComponent, diabetesComponent, totalChol, hdlChol,
      show (40:ℝ)/40 = 1 from by norm_num, show (120:ℝ)/120 = 1 from by norm_num,
      show (5:ℝ)/5.0 = 1 from by norm_num]
    norm_num
  exact ⟨hb, (C2_region_ordering_amended _ hb).1⟩

section C4Support

/-- The reported percentage of the calculator, by definition. -/
lemma reported_def (p : Params) : (calculateSCORE2Risk p).riskPercentage =
    ((round (riskPercentageClamped p * 10) : ℤ) : ℝ) / 10 := rfl

/-- Any raw percentage at least 50 is reported as exactly 50. -/
lemma reported_of_ge50 (p : Params) (h : 50 ≤ riskPercentageRaw p) :
    (calculateSCORE2Risk p).riskPercentage = 50 := by
  rw [reported_def]
  unfold riskPercentageClamped
  rw [min_eq_left h, max_eq_right (by norm_num : (0.1:ℝ) ≤ 50)]
  rw [show (50:ℝ) * 10 = 500 by norm_num,
    round_eq_of_mem (n := 500) (by norm_num) (by norm_num)]
  norm_num

/-- Replacing the smoking status changes the pre-regional score only in
the smoking component. -/
lemma baseScore_set_smoking (p : Params) (s : String) :
    baseScore { p with smoking := s } =
      ageComponent p + sexComponent p + (if s = "smoker" then 0.6 else 0) +
        bpComponent p + cholComponent p + hdlComponent p + diabetesComponent p := rfl

lemma riskScore_set_smoking (p : Params) (s : String) :
    riskScore { p with smoking := s } =
      baseScore { p with smoking := s } * regionalFactor p.region *
        (if useScore2OP p then 1.2 else 1) := rfl

lemma baselineRisk_set_smoking (p : Params) (s : String) :
    baselineRisk { p with smoking := s } = baselineRisk p := rfl

end C4Support

lemma pC4_base_ge (s : String) :
    0.5 + 3.8 * Real.log 2 ≤ baseScore (pC4 s) := by
  have hsm : (0:ℝ) ≤ smokingComponent (pC4 s) := by
    unfold smokingComponent
    split <;> norm_num
  have hrest : baseScore (pC4 s) = Real.log 2 * 0.8 + 0.5 + smokingComponent (pC4 s) +
      0 + Real.log 1024 * 0.3 + 0 + 0 := by
    unfold baseScore ageComponent sexComponent bpComponent cholComponent
      hdlComponent diabetesComponent totalChol hdlChol pC4
    simp [show (80:ℝ)/40 = 2 from by norm_num, show (120:ℝ)/120 = 1 from by norm_num,
      show (5120:ℝ)/5.0 = 1024 from by norm_num]
  have hlog : Real.log 1024 = 10 * Real.log 2 := by
    rw [show (1024:ℝ) = 2 ^ 10 by norm_num, Real.log_pow]
    push_cast
    ring
  rw [hrest, hlog]
  linarith

lemma pC4_ge50 (s : String) : 50 ≤ riskPercentageRaw (pC4 s) := by
  have hl2 := Real.log_two_gt_d9
  have hOP : useScore2OP (pC4 s) := by norm_num [useScore2OP, pC4]
  have hbl : baselineRisk (pC4 s) = 0.15 := by
    unfold baselineRisk
    rw [if_pos hOP]
  have hfm : regionalFactor "moderate" = 1 := by
    simp [regionalFactor]
    norm_num
  have hS : (1.6:ℝ) ≤ riskScore (pC4 s) := by
    have : riskScore (pC4 s) = baseScore (pC4 s) * regionalFactor "moderate" *
        (if useScore2OP (pC4 s) then 1.2 else 1) := rfl
    rw [this, hfm, if_pos hOP]
    have := pC4_base_ge s
    nlinarith
  have e16 : (4.9:ℝ) < Real.exp 1.6 := by
    have h := rat_lt_exp 16 10 4.9 (by norm_num) (by norm_num) (by norm_num)
    have hc : ((16:ℕ) : ℝ) / ((10:ℕ) : ℝ) = 1.6 := by norm_num
    rwa [hc] at h
  have hexp : (4.9:ℝ) < Real.exp (riskScore (pC4 s)) :=
    lt_of_lt_of_le e16 (Real.exp_le_exp.mpr hS)
  have e07 : (2.01:ℝ) < Real.exp 0.7 := by
    have h := rat_lt_exp 7 10 2.01 (by norm_num) (by norm_num) (by norm_num)
    have hc : ((7:ℕ) : ℝ) / ((10:ℕ) : ℝ) = 0.7 := by norm_num
    rwa [hc] at h
  unfold riskPercentageRaw
  rw [hbl]
  have ht : (0.7:ℝ) ≤ Real.exp (riskScore (pC4 s)) * 0.15 := by nlinarith
  have h1 : Real.exp (-Real.exp (riskScore (pC4 s)) * 0.15) ≤ Real.exp (-(0.7:ℝ)) :=
    Real.exp_le_exp.mpr (by linarith)
  have h2 : Real.exp (-(0.7:ℝ)) = (Real.exp 0.7)⁻¹ := Real.exp_neg _
  have h3 : (Real.exp 0.7)⁻¹ < (2.01:ℝ)⁻¹ :=
    inv_lt_inv_of_pos_lt (by norm_num) e07
  rw [h2] at h1
  have h4 : Real.exp (-Real.exp (riskScore (pC4 s)) * 0.15) < (2.01:ℝ)⁻¹ :=
    lt_of_le_of_lt h1 h3
  have h5 : ((2.01:ℝ))⁻¹ ≤ 0.4976 := by norm_num
  nlinarith

/-- C4 counterexample: the smoker and non-smoker profiles report the same
riskPercentage (both 50), so the strict decrease claimed does not hold. -/
theorem C4_counterexample :
    (calculateSCORE2Risk (pC4 "non-smoker")).riskPercentage =
      (calculateSCORE2Risk (pC4 "smoker")).riskPercentage := by
  rw [reported_of_ge50 _ (pC4_ge50 "non-smoker"),
    reported_of_ge50 _ (pC4_ge50 "smoker")]

section RawBounds

/-- The raw percentage is at most `exp score * baseline * 100`. -/
lemma raw_le_mul (p : Params) :
    riskPercentageRaw p ≤ Real.exp (riskScore p) * baselineRisk p * 100 := by
  unfold riskPercentageRaw
  have hrw : -Real.exp (riskScore p) * baselineRisk p =
      -(Real.exp (riskScore p) * baselineRisk p) := by ring
  rw [hrw]
  have := one_sub_exp_neg_le_self (Real.exp (riskScore p) * baselineRisk p)
  linarith

/-- The raw percentage is nonnegative. -/
lemma raw_nonneg (p : Params) : 0 ≤ riskPercentageRaw p := by
  unfold riskPercentageRaw
  have hT : 0 ≤ Real.exp (riskScore p) * baselineRisk p :=
    mul_nonneg (Real.exp_pos _).le (baselineRisk_pos p).le
  have h1 : Real.exp (-Real.exp (riskScore p) * baselineRisk p) ≤ 1 := by
    rw [show -Real.exp (riskScore p) * baselineRisk p =
      -(Real.exp (riskScore p) * baselineRisk p) by ring]
    calc Real.exp (-(Real.exp (riskScore p) * baselineRisk p)) ≤ Real.exp 0 :=
          Real.exp_le_exp.mpr (by linarith)
      _ = 1 := Real.exp_zero
  linarith

/-- Lower bound on the raw percentage from a lower bound on
`exp score * baseline`. -/
lemma raw_ge_of (p : Params) {a : ℝ}
    (h : a ≤ Real.exp (riskScore p) * baselineRisk p) :
    (1 - Real.exp (-a)) * 100 ≤ riskPercentageRaw p := by
  unfold riskPercentageRaw
  rw [show -Real.exp (riskScore p) * baselineRisk p =
    -(Real.exp (riskScore p) * baselineRisk p) by ring]
  have := Real.exp_le_exp.mpr (neg_le_neg h)
  linarith

/-- A clamped value of at least 0.15 is reported as at least 0.2. -/
lemma reported_ge_two_tenths (p : Params) (h : 0.15 ≤ riskPercentageClamped p) :
    (0.2:ℝ) ≤ (calculateSCORE2Risk p).riskPercentage := by
  rw [reported_def]
  have h2 : (2:ℤ) ≤ round (riskPercentageClamped p * 10) := by
    apply le_round_of_le
    push_cast
    linarith
  have : (2:ℝ) ≤ ((round (riskPercentageClamped p * 10) : ℤ) : ℝ) := by
    exact_mod_cast h2
  linarith

/-- A clamped value below 0.15 is reported as at most 0.1. -/
lemma reported_le_one_tenth (p : Params) (h : riskPercentageClamped p < 0.15) :
    (calculateSCORE2Risk p).riskPercentage ≤ 0.1 := by
  rw [reported_def]
  have h2 : round (riskPercentageClamped p * 10) ≤ 1 := by
    apply round_le_of_lt
    push_cast
    linarith
  have : ((round (riskPercentageClamped p * 10) : ℤ) : ℝ) ≤ 1 := by
    exact_mod_cast h2
  linarith

/-- The clamp is the identity between 0.1 and 50. -/
lemma clamped_eq_raw (p : Params) (h1 : 0.1 ≤ riskPercentageRaw p)
    (h2 : riskPercentageRaw p ≤ 50) :
    riskPercentageClamped p = riskPercentageRaw p := by
  unfold riskPercentageClamped
  rw [min_eq_right h2]
  exact max_eq_right h1

end RawBounds

/-- C4 (amended): switching from smoker to non-smoker with all else fixed
strictly decreases the raw (pre-clamp) risk percentage, and never
increases the reported riskPercentage (rounding and the clamp can make
the reported values equal). -/
theorem C4_smoking_decrease_amended (p : Params) :
    riskPercentageRaw { p with smoking := "non-smoker" } <
      riskPercentageRaw { p with smoking := "smoker" } ∧
    (calculateSCORE2Risk { p with smoking := "non-smoker" }).riskPercentage ≤
      (calculateSCORE2Risk { p with smoking := "smoker" }).riskPercentage := by
  have hb : baseScore { p with smoking := "non-smoker" } + 0.6 =
      baseScore { p with smoking := "smoker" } := by
    rw [baseScore_set_smoking p "non-smoker", baseScore_set_smoking p "smoker"]
    simp
    ring
  have hfc : 0 < regionalFactor p.region * (if useScore2OP p then 1.2 else 1) := by
    have h1 := regionalFactor_pos p.region
    have h2 : (0:ℝ) < (if useScore2OP p then 1.2 else 1) := by
      split <;> norm_num
    positivity
  have hsc : riskScore { p with smoking := "non-smoker" } <
      riskScore { p with smoking := "smoker" } := by
    rw [riskScore_set_smoking p "non-smoker", riskScore_set_smoking p "smoker",
      mul_assoc, mul_assoc]
    have := mul_lt_mul_of_pos_right
      (show baseScore { p with smoking := "non-smoker" } <
        baseScore { p with smoking := "smoker" } from by linarith) hfc
    linarith [this]
  have hbl : baselineRisk { p with smoking := "non-smoker" } =
      baselineRisk { p with smoking := "smoker" } := by
    rw [baselineRisk_set_smoking p "non-smoker", baselineRisk_set_smoking p "smoker"]
  constructor
  · unfold riskPercentageRaw
    rw [hbl]
    exact riskTransform_strictMono
      (baselineRisk_pos { p with smoking := "smoker" }) hsc
  · exact reported_mono (clamp_mono (by
      unfold riskPercentageRaw
      rw [hbl]
      exact le_of_lt (riskTransform_strictMono
        (baselineRisk_pos { p with smoking := "smoker" }) hsc)))

section C3Support

lemma log_6940_gt : (163:ℝ) / 300 < Real.log (69 / 40) := by
  have h := exp_rat_lt 163 300 ((69:ℝ)/40) (by norm_num) (by norm_num) (by norm_num)
    (by norm_num)
  have hc : ((163:ℕ) : ℝ) / ((300:ℕ) : ℝ) = (163:ℝ)/300 := by norm_num
  rw [hc] at h
  exact (Real.lt_log_iff_exp_lt (by norm_num)).mpr h

lemma log_6940_lt : Real.log (69 / 40) < (164:ℝ) / 300 := by
  have h := rat_lt_exp 164 300 ((69:ℝ)/40) (by norm_num) (by norm_num) (by norm_num)
  have hc : ((164:ℕ) : ℝ) / ((300:ℕ) : ℝ) = (164:ℝ)/300 := by norm_num
  rw [hc] at h
  exact (Real.log_lt_iff_lt_exp (by norm_num)).mpr h

lemma log_74_lt : Real.log (7 / 4) < 0.56 := by
  have h := rat_lt_exp 56 100 ((7:ℝ)/4) (by norm_num) (by norm_num) (by norm_num)
  have hc : ((56:ℕ) : ℝ) / ((100:ℕ) : ℝ) = 0.56 := by norm_num
  rw [hc] at h
  exact (Real.log_lt_iff_lt_exp (by norm_num)).mpr h

lemma log_5120_eq : Real.log 5120 = 10 * Real.log 2 + Real.log 5 := by
  have h : (5120:ℝ) = 2 ^ 10 * 5 := by norm_num
  rw [h, Real.log_mul (by norm_num) (by norm_num), Real.log_pow]
  push_cast
  ring

lemma log_5120_ge : (8.5364:ℝ) ≤ Real.log 5120 := by
  rw [log_5120_eq]
  have h2 := Real.log_two_gt_d9
  have h5 := log_five_gt
  linarith

lemma log_5120_le : Real.log 5120 ≤ 8.5415 := by
  rw [log_5120_eq]
  have h2 := Real.log_two_lt_d9
  have h5 := log_five_lt
  linarith

end C3Support

lemma pC3_base (a : ℝ) :
    baseScore (pC3 a) = Real.log (a / 40) * 0.7 - Real.log 5120 * 0.3 := by
  simp [baseScore, ageComponent, sexComponent, smokingComponent, bpComponent,
    cholComponent, hdlComponent, diabetesComponent, totalChol, hdlChol, pC3,
    show (120:ℝ)/120 = 1 from by norm_num]
  rw [show (0.0009765625:ℝ)/5.0 = (5120:ℝ)⁻¹ from by norm_num, Real.log_inv]
  ring

lemma pC3_69_report : (0.2:ℝ) ≤ (calculateSCORE2Risk (pC3 69)).riskPercentage := by
  have hnotOP : ¬useScore2OP (pC3 69) := by norm_num [useScore2OP, pC3]
  have hfvh : regionalFactor "very-high" = 1.8 := by simp [regionalFactor]
  have hS : riskScore (pC3 69) =
      (Real.log (69 / 40) * 0.7 - Real.log 5120 * 0.3) * 1.8 := by
    have h0 : riskScore (pC3 69) = baseScore (pC3 69) * regionalFactor "very-high" *
        (if useScore2OP (pC3 69) then 1.2 else 1) := rfl
    rw [h0, if_neg hnotOP, hfvh, pC3_base, mul_one]
  have hbl : baselineRisk (pC3 69) = 0.08 := by
    unfold baselineRisk
    rw [if_neg hnotOP]
  have hL1 := log_6940_gt
  have hL1' := log_6940_lt
  have hL2lo := log_5120_ge
  have hL2hi := log_5120_le
  have hSlo : (-3.93:ℝ) ≤ riskScore (pC3 69) := by rw [hS]; nlinarith
  have hShi : riskScore (pC3 69) ≤ 0 := by rw [hS]; nlinarith
  have e393 : Real.exp 3.93 < (10000:ℝ)/193 := by
    have h := exp_rat_lt 393 100 ((10000:ℝ)/193) (by norm_num) (by norm_num)
      (by norm_num) (by norm_num)
    have hc : ((393:ℕ) : ℝ) / ((100:ℕ) : ℝ) = 3.93 := by norm_num
    rwa [hc] at h
  have hexp : (193:ℝ)/10000 ≤ Real.exp (riskScore (pC3 69)) := by
    have h1 : Real.exp (-(3.93:ℝ)) ≤ Real.exp (riskScore (pC3 69)) :=
      Real.exp_le_exp.mpr (by linarith)
    have h2 : ((10000:ℝ)/193)⁻¹ < (Real.exp 3.93)⁻¹ :=
      inv_lt_inv_of_pos_lt (Real.exp_pos _) e393
    have h3 : Real.exp (-(3.93:ℝ)) = (Real.exp 3.93)⁻¹ := Real.exp_neg _
    have h4 : ((10000:ℝ)/193)⁻¹ = 193/10000 := by norm_num
    rw [h3] at h1
    rw [h4] at h2
    linarith
  have hraw_lo : (0.15:ℝ) ≤ riskPercentageRaw (pC3 69) := by
    have ha : (0.001544:ℝ) ≤ Real.exp (riskScore (pC3 69)) * baselineRisk (pC3 69) := by
      rw [hbl]
      nlinarith
    have h1 := raw_ge_of (pC3 69) ha
    have h2 := div_le_one_sub_exp_neg (t := (0.001544:ℝ)) (by norm_num)
    have h3 : (0.0015:ℝ) ≤ (0.001544:ℝ) / (1 + 0.001544) := by norm_num
    linarith
  have hraw_hi : riskPercentageRaw (pC3 69) ≤ 50 := by
    have h1 := raw_le_mul (pC3 69)
    have h2 : Real.exp (riskScore (pC3 69)) ≤ 1 := by
      calc Real.exp (riskScore (pC3 69)) ≤ Real.exp 0 := Real.exp_le_exp.mpr hShi
        _ = 1 := Real.exp_zero
    rw [hbl] at h1
    nlinarith [Real.exp_pos (riskScore (pC3 69))]
  apply reported_ge_two_tenths
  rw [clamped_eq_raw _ (by linarith) hraw_hi]
  exact hraw_lo

lemma pC3_70_report : (calculateSCORE2Risk (pC3 70)).riskPercentage ≤ 0.1 := by
  have hOP : useScore2OP (pC3 70) := by norm_num [useScore2OP, pC3]
  have hfvh : regionalFactor "very-high" = 1.8 := by simp [regionalFactor]
  have hS : riskScore (pC3 70) =
      (Real.log (7 / 4) * 0.7 - Real.log 5120 * 0.3) * 1.8 * 1.2 := by
    have h0 : riskScore (pC3 70) = baseScore (pC3 70) * regionalFactor "very-high" *
        (if useScore2OP (pC3 70) then 1.2 else 1) := rfl
    rw [h0, if_pos hOP, hfvh, pC3_base,
      show ((70:ℝ)/40) = 7/4 from by norm_num]
  have hbl : baselineRisk (pC3 70) = 0.15 := by
    unfold baselineRisk
    rw [if_pos hOP]
  have hL1 := log_74_lt
  have hL1pos : (0:ℝ) < Real.log (7/4) := Real.log_pos (by norm_num)
  have hL2lo := log_5120_ge
  have hShi : riskScore (pC3 70) ≤ -4.68 := by rw [hS]; nlinarith
  have e468 : (105:ℝ) < Real.exp 4.68 := by
    have h := rat_lt_exp 468 100 105 (by norm_num) (by norm_num) (by norm_num)
    have hc : ((468:ℕ) : ℝ) / ((100:ℕ) : ℝ) = 4.68 := by norm_num
    rwa [hc] at h
  have hexp : Real.exp (riskScore (pC3 70)) < 1/105 := by
    have h1 : Real.exp (riskScore (pC3 70)) ≤ Real.exp (-(4.68:ℝ)) :=
      Real.exp_le_exp.mpr (by linarith)
    have h2 : (Real.exp 4.68)⁻¹ < (105:ℝ)⁻¹ :=
      inv_lt_inv_of_pos_lt (by norm_num) e468
    have h3 : Real.exp (-(4.68:ℝ)) = (Real.exp 4.68)⁻¹ := Real.exp_neg _
    rw [h3] at h1
    calc Real.exp (riskScore (pC3 70)) ≤ (Real.exp 4.68)⁻¹ := h1
      _ < (105:ℝ)⁻¹ := h2
      _ = 1/105 := by norm_num
  have hraw : riskPercentageRaw (pC3 70) ≤ 1/7 := by
    have h1 := raw_le_mul (pC3 70)
    rw [hbl] at h1
    nlinarith
  apply reported_le_one_tenth
  have hcl : riskPercentageClamped (pC3 70) ≤ 1/7 := by
    unfold riskPercentageClamped
    exact max_le (by norm_num) (le_trans (min_le_right _ _) hraw)
  linarith

/-- C3 counterexample: for the valid inputs `pC3 69` and `pC3 70`
(identical except age 69 < age 70, straddling the SCORE2 / SCORE2-OP
switch), the older profile reports a strictly smaller riskPercentage. -/
theorem C3_counterexample :
    (calculateSCORE2Risk (pC3 70)).riskPercentage <
      (calculateSCORE2Risk (pC3 69)).riskPercentage :=
  lt_of_le_of_lt pC3_70_report (lt_of_lt_of_le (by norm_num) pC3_69_report)

section C3Amended

lemma baseScore_set_age (p : Params) (a : ℝ) :
    baseScore { p with age := a } =
      Real.log (a / 40) * (if p.sex = "male" then 0.8 else 0.7) + sexComponent p +
        smokingComponent p + bpComponent p + cholComponent p + hdlComponent p +
        diabetesComponent p := rfl

lemma riskScore_set_age (p : Params) (a : ℝ) :
    riskScore { p with age := a } =
      baseScore { p with age := a } * regionalFactor p.region *
        (if useScore2OP { p with age := a } then 1.2 else 1) := rfl

lemma baselineRisk_set_age (p : Params) (a : ℝ) :
    baselineRisk { p with age := a } =
      (if useScore2OP { p with age := a } then (0.15:ℝ) else 0.08) := rfl

end C3Amended

/-- C3 (amended): the reported riskPercentage is non-decreasing in age
whenever both ages select the same algorithm (both below 70, or both at
least 70).  Across the switch to SCORE2-OP at age 70 the reported risk
can strictly decrease, as `C3_counterexample` shows. -/
theorem C3_age_monotone_amended (p : Params) (a2 : ℝ) (h40 : 40 ≤ p.age)
    (hlt : p.age < a2) (hsame : a2 < 70 ∨ useScore2OP p) :
    (calculateSCORE2Risk p).riskPercentage ≤
      (calculateSCORE2Risk { p with age := a2 }).riskPercentage := by
  have hOPiff : useScore2OP { p with age := a2 } ↔ useScore2OP p := by
    unfold useScore2OP
    show 70 ≤ a2 ↔ 70 ≤ p.age
    rcases hsame with h | h
    · constructor
      · intro h2; linarith
      · intro h2; linarith
    · have : (70:ℝ) ≤ p.age := h
      constructor
      · intro _; exact this
      · intro _; linarith
  apply reported_mono
  apply clamp_mono
  have hbl : baselineRisk p = baselineRisk { p with age := a2 } := by
    rw [baselineRisk_set_age]
    unfold baselineRisk
    by_cases hop : useScore2OP p
    · rw [if_pos hop, if_pos (hOPiff.mpr hop)]
    · rw [if_neg hop, if_neg (fun hc => hop (hOPiff.mp hc))]
  apply riskPercentageRaw_mono hbl
  rw [riskScore_set_age p a2]
  have hp : riskScore p = baseScore p * regionalFactor p.region *
      (if useScore2OP p then 1.2 else 1) := rfl
  rw [hp]
  have hite : (if useScore2OP { p with age := a2 } then (1.2:ℝ) else 1) =
      (if useScore2OP p then (1.2:ℝ) else 1) := if_congr hOPiff rfl rfl
  rw [hite]
  have hbase : baseScore p ≤ baseScore { p with age := a2 } := by
    rw [baseScore_set_age p a2]
    have hb : baseScore p = Real.log (p.age / 40) *
        (if p.sex = "male" then 0.8 else 0.7) + sexComponent p + smokingComponent p +
        bpComponent p + cholComponent p + hdlComponent p + diabetesComponent p := rfl
    rw [hb]
    have hlog : Real.log (p.age / 40) ≤ Real.log (a2 / 40) :=
      Real.log_le_log (by linarith) (by linarith)
    have hcoef : (0:ℝ) ≤ (if p.sex = "male" then 0.8 else 0.7) := by
      split <;> norm_num
    nlinarith
  have hfac : (0:ℝ) ≤ regionalFactor p.region * (if useScore2OP p then 1.2 else 1) := by
    have h1 := regionalFactor_pos p.region
    have h2 : (0:ℝ) < (if useScore2OP p then 1.2 else 1) := by split <;> norm_num
    positivity
  calc baseScore p * regionalFactor p.region * (if useScore2OP p then 1.2 else 1)
      = baseScore p * (regionalFactor p.region * (if useScore2OP p then 1.2 else 1)) := by
        ring
    _ ≤ baseScore { p with age := a2 } *
        (regionalFactor p.region * (if useScore2OP p then 1.2 else 1)) :=
        mul_le_mul_of_nonneg_right hbase hfac
    _ = baseScore { p with age := a2 } * regionalFactor p.region *
        (if useScore2OP p then 1.2 else 1) := by ring

/-- Witness for the amended C3 at ages 55 < 60, both below 70. -/
theorem C3_age_monotone_amended_witness :
    (40:ℝ) ≤ (55:ℝ) ∧ (55:ℝ) < 60 ∧ ((60:ℝ) < 70 ∨
      useScore2OP ⟨55, "male", "moderate", "non-smoker", 130, 5, "mmol/L", none, "no", none⟩) ∧
    (calculateSCORE2Risk
      ⟨55, "male", "moderate", "non-smoker", 130, 5, "mmol/L", none, "no", none⟩).riskPercentage ≤
      (calculateSCORE2Risk { (⟨55, "male", "moderate", "non-smoker", 130, 5, "mmol/L",
        none, "no", none⟩ : Params) with age := 60 }).riskPercentage := by
  refine ⟨by norm_num, by norm_num, Or.inl (by norm_num), ?_⟩
  exact C3_age_monotone_amended _ 60 (by norm_num) (by norm_num) (Or.inl (by norm_num))

lemma pC5_base : baseScore pC5 = 0 := by
  simp [baseScore, ageComponent, sexComponent, smokingComponent, bpComponent,
    cholComponent, hdlComponent, diabetesComponent, totalChol, hdlChol, pC5,
    show (40:ℝ)/40 = 1 from by norm_num, show (120:ℝ)/120 = 1 from by norm_num,
    show (193.35:ℝ)/38.67 = 5 from by norm_num, show (5:ℝ)/5.0 = 1 from by norm_num]

lemma pC5_notOP : ¬useScore2OP pC5 := by norm_num [useScore2OP, pC5]

lemma pC5_score : riskScore pC5 = 0 := by
  have h0 : riskScore pC5 = baseScore pC5 * regionalFactor "moderate" *
      (if useScore2OP pC5 then 1.2 else 1) := rfl
  rw [h0, pC5_base, zero_mul, zero_mul]

lemma pC5_refscore : referenceRiskScore pC5 = 0 := by
  have h0 : referenceRiskScore pC5 =
      (ageComponent pC5 + sexComponent pC5 + 0 + Real.log ((120:ℝ) / 120) * 0.4 +
        Real.log ((5.0:ℝ) / 5.0) * 0.3 + hdlComponent pC5) *
      regionalFactor "moderate" * (if useScore2OP pC5 then 1.2 else 1) := rfl
  rw [h0]
  have h1 : ageComponent pC5 = 0 := by
    simp [ageComponent, pC5, show (40:ℝ)/40 = 1 from by norm_num]
  have h2 : sexComponent pC5 = 0 := by simp [sexComponent, pC5]
  have h3 : hdlComponent pC5 = 0 := by simp [hdlComponent, hdlChol, pC5]
  rw [h1, h2, h3, show (120:ℝ)/120 = 1 by norm_num, show (5.0:ℝ)/5.0 = 1 by norm_num,
    Real.log_one]
  ring

lemma pC5_baseline : baselineRisk pC5 = 0.08 := by
  unfold baselineRisk
  rw [if_neg pC5_notOP]

lemma pC5_raw_bounds : (7.4:ℝ) ≤ riskPercentageRaw pC5 ∧ riskPercentageRaw pC5 ≤ 8 := by
  constructor
  · have ha : (0.08:ℝ) ≤ Real.exp (riskScore pC5) * baselineRisk pC5 := by
      rw [pC5_score, pC5_baseline, Real.exp_zero, one_mul]
    have h1 := raw_ge_of pC5 ha
    have h2 := div_le_one_sub_exp_neg (t := (0.08:ℝ)) (by norm_num)
    have h3 : (0.074:ℝ) ≤ (0.08:ℝ) / (1 + 0.08) := by norm_num
    linarith
  · have h1 := raw_le_mul pC5
    rw [pC5_score, pC5_baseline, Real.exp_zero, one_mul] at h1
    linarith

lemma pC5_clamped : riskPercentageClamped pC5 = riskPercentageRaw pC5 :=
  clamped_eq_raw pC5 (by linarith [pC5_raw_bounds.1]) (by linarith [pC5_raw_bounds.2])

lemma pC5_refraw : referenceRiskRaw pC5 = riskPercentageRaw pC5 := by
  unfold referenceRiskRaw riskPercentageRaw
  rw [pC5_score, pC5_refscore]

lemma pC5_quot : riskQuot pC5 = 1 := by
  unfold riskQuot referenceRiskClamped
  rw [pC5_refraw]
  have h : max 0.1 (min 50 (riskPercentageRaw pC5)) = riskPercentageClamped pC5 := rfl
  rw [h, div_self]
  rw [pC5_clamped]
  linarith [pC5_raw_bounds.1]

lemma pC5_heartAge : (calculateSCORE2Risk pC5).heartAge = 40 := by
  show heartAge pC5 = 40
  unfold heartAge
  rw [pC5_quot]
  have h1 : (pC5.age + (1 - 1) * 10) = (40:ℝ) := by
    norm_num [pC5]
  rw [h1]
  rw [round_eq_of_mem (n := 40) (by norm_num) (by norm_num)]
  have h2 : min (100:ℝ) ((40:ℤ):ℝ) = 40 := by norm_num
  rw [h2]
  have h3 : pC5.age = (40:ℝ) := rfl
  rw [h3]
  norm_num

lemma log_3867_gt : (3.63:ℝ) < Real.log 38.67 := by
  have h := exp_rat_lt 363 100 (38.67:ℝ) (by norm_num) (by norm_num) (by norm_num)
    (by norm_num)
  have hc : ((363:ℕ) : ℝ) / ((100:ℕ) : ℝ) = 3.63 := by norm_num
  rw [hc] at h
  exact (Real.lt_log_iff_exp_lt (by norm_num)).mpr h

lemma pC5_spec_ref_eq : specReferenceRiskPct pC5 = riskPercentageClamped pC5ref := rfl

lemma pC5_spec_ref_le : specReferenceRiskPct pC5 ≤ 2.722 := by
  rw [pC5_spec_ref_eq]
  have hbase : baseScore pC5ref = -(Real.log 38.67 * 0.3) := by
    simp [baseScore, ageComponent, sexComponent, smokingComponent, bpComponent,
      cholComponent, hdlComponent, diabetesComponent, totalChol, hdlChol, pC5ref,
      show (40:ℝ)/40 = 1 from by norm_num, show (120:ℝ)/120 = 1 from by norm_num]
    rw [show (5.0:ℝ)/38.67/5.0 = (38.67:ℝ)⁻¹ from by norm_num, Real.log_inv]
    ring
  have hnotOP : ¬useScore2OP pC5ref := by norm_num [useScore2OP, pC5ref]
  have hfm : regionalFactor "moderate" = 1 := by
    simp [regionalFactor]
    norm_num
  have hS : riskScore pC5ref = -(Real.log 38.67 * 0.3) := by
    have h0 : riskScore pC5ref = baseScore pC5ref * regionalFactor "moderate" *
        (if useScore2OP pC5ref then 1.2 else 1) := rfl
    rw [h0, hbase, if_neg hnotOP, mul_one, hfm, mul_one]
  have hbl : baselineRisk pC5ref = 0.08 := by
    unfold baselineRisk
    rw [if_neg hnotOP]
  have hSle : riskScore pC5ref ≤ -1.08 := by
    rw [hS]
    have := log_3867_gt
    linarith
  have e108 : (2.94:ℝ) < Real.exp 1.08 := by
    have h := rat_lt_exp 108 100 2.94 (by norm_num) (by norm_num) (by norm_num)
    have hc : ((108:ℕ) : ℝ) / ((100:ℕ) : ℝ) = 1.08 := by norm_num
    rwa [hc] at h
  have hexp : Real.exp (riskScore pC5ref) < 1/2.94 := by
    have h1 : Real.exp (riskScore pC5ref) ≤ Real.exp (-(1.08:ℝ)) :=
      Real.exp_le_exp.mpr (by linarith)
    have h2 : (Real.exp 1.08)⁻¹ < (2.94:ℝ)⁻¹ :=
      inv_lt_inv_of_pos_lt (by norm_num) e108
    have h3 : Real.exp (-(1.08:ℝ)) = (Real.exp 1.08)⁻¹ := Real.exp_neg _
    rw [h3] at h1
    calc Real.exp (riskScore pC5ref) ≤ (Real.exp 1.08)⁻¹ := h1
      _ < (2.94:ℝ)⁻¹ := h2
      _ = 1/2.94 := by norm_num
  have hraw : riskPercentageRaw pC5ref ≤ 2.722 := by
    have h1 := raw_le_mul pC5ref
    rw [hbl] at h1
    nlinarith
  unfold riskPercentageClamped
  exact max_le (by norm_num) (le_trans (min_le_right _ _) hraw)

lemma pC5_spec_ref_pos : (0.1:ℝ) ≤ specReferenceRiskPct pC5 := le_max_left _ _

/-- C5 counterexample: for cholesterol given in mg/dL the reference
recomputation keeps its cholesterol term at the literal
`Math.log(5.0/5.0)*0.3 = 0` instead of renormalizing 5.0 under the input
unit, so the returned heartAge (40 here) differs from the value obtained
by recomputing stages A-D on the reference parameter set of the spec (at least
50 here). -/
theorem C5_counterexample :
    (calculateSCORE2Risk pC5).heartAge ≠ specHeartAge pC5 := by
  have hmain_lo : (7.4:ℝ) ≤ riskPercentageClamped pC5 := by
    rw [pC5_clamped]
    exact pC5_raw_bounds.1
  have hpos : (0:ℝ) < specReferenceRiskPct pC5 := by
    linarith [pC5_spec_ref_pos]
  have hquot : (2:ℝ) ≤ riskPercentageClamped pC5 / specReferenceRiskPct pC5 := by
    rw [le_div_iff₀ hpos]
    nlinarith [pC5_spec_ref_le]
  have hage : pC5.age = (40:ℝ) := rfl
  have harg : (50:ℝ) ≤ pC5.age +
      (riskPercentageClamped pC5 / specReferenceRiskPct pC5 - 1) * 10 := by
    rw [hage]
    nlinarith
  have hround : (50:ℤ) ≤ round (pC5.age +
      (riskPercentageClamped pC5 / specReferenceRiskPct pC5 - 1) * 10) := by
    apply le_round_of_le
    push_cast
    linarith
  have hroundR : (50:ℝ) ≤ ((round (pC5.age +
      (riskPercentageClamped pC5 / specReferenceRiskPct pC5 - 1) * 10) : ℤ) : ℝ) := by
    exact_mod_cast hround
  have hspec : (50:ℝ) ≤ specHeartAge pC5 := by
    unfold specHeartAge
    calc (50:ℝ) ≤ min 100 ((round (pC5.age +
          (riskPercentageClamped pC5 / specReferenceRiskPct pC5 - 1) * 10) : ℤ) : ℝ) :=
          le_min (by norm_num) hroundR
      _ ≤ max pC5.age (min 100 ((round (pC5.age +
          (riskPercentageClamped pC5 / specReferenceRiskPct pC5 - 1) * 10) : ℤ) : ℝ)) :=
          le_max_right _ _
  rw [pC5_heartAge]
  have : (40:ℝ) < specHeartAge pC5 := by linarith
  exact ne_of_lt this

/-- C5 (amended): for every input with age at most 100 the returned
heartAge equals round(age + (ratio - 1) * 10) clamped to [age, 100],
where ratio divides the clamped risk percentage by the reference
risk percentage, whose cholesterol term is the literal
`Math.log(5.0/5.0) * 0.3 = 0` (the reference total cholesterol is taken
as 5.0 mmol/L without renormalizing under the cholesterolUnit of the input);
in particular age ≤ heartAge ≤ 100. -/
theorem C5_heartAge_amended (p : Params) (h100 : p.age ≤ 100) :
    (calculateSCORE2Risk p).heartAge =
      max p.age (min 100 ((round (p.age +
        (riskPercentageClamped p / referenceRiskClamped p - 1) * 10) : ℤ) : ℝ)) ∧
    p.age ≤ (calculateSCORE2Risk p).heartAge ∧
    (calculateSCORE2Risk p).heartAge ≤ 100 := by
  refine ⟨rfl, le_max_left _ _, ?_⟩
  show max p.age (min 100 ((round (p.age + (riskQuot p - 1) * 10) : ℤ) : ℝ)) ≤ 100
  exact max_le h100 (min_le_left _ _)

/-- Witness for the amended C5 at a concrete input. -/
theorem C5_heartAge_amended_witness :
    ((⟨55, "male", "moderate", "non-smoker", 130, 5, "mmol/L", none, "no",
        none⟩ : Params)).age ≤ 100 ∧
    ((⟨55, "male", "moderate", "non-smoker", 130, 5, "mmol/L", none, "no",
        none⟩ : Params)).age ≤
      (calculateSCORE2Risk ⟨55, "male", "moderate", "non-smoker", 130, 5,
        "mmol/L", none, "no", none⟩).heartAge := by
  have h100 : ((⟨55, "male", "moderate", "non-smoker", 130, 5, "mmol/L", none, "no",
      none⟩ : Params)).age ≤ 100 := by norm_num
  exact ⟨h100, (C5_heartAge_amended _ h100).2.1⟩

section TaylorWindow

/-- Two-sided window for the percentage transform `(1 - exp (-t)) * 100`
when `t` lies in a rational interval `[a, b] ⊆ [0, 1]`. -/
lemma transform_window {t a b : ℝ} (ha : 0 ≤ a) (hb : b ≤ 1) (h1 : a ≤ t)
    (h2 : t ≤ b) :
    (a - b ^ 2 / 2 + a ^ 3 / 6 - 5 * b ^ 4 / 96) * 100 ≤ (1 - Real.exp (-t)) * 100 ∧
      (1 - Real.exp (-t)) * 100 ≤ (b - a ^ 2 / 2 + b ^ 3 / 6 + 5 * b ^ 4 / 96) * 100 := by
  have h0t : 0 ≤ t := le_trans ha h1
  have ht1 : t ≤ 1 := le_trans h2 hb
  obtain ⟨hlo, hhi⟩ := exp_neg_taylor h0t ht1
  have p2 : t ^ 2 ≤ b ^ 2 := pow_le_pow_left₀ h0t h2 2
  have p2' : a ^ 2 ≤ t ^ 2 := pow_le_pow_left₀ ha h1 2
  have p3 : t ^ 3 ≤ b ^ 3 := pow_le_pow_left₀ h0t h2 3
  have p3' : a ^ 3 ≤ t ^ 3 := pow_le_pow_left₀ ha h1 3
  have p4 : t ^ 4 ≤ b ^ 4 := pow_le_pow_left₀ h0t h2 4
  constructor <;> linarith

end TaylorWindow

lemma pC6_base : baseScore pC6 =
    Real.log (11/8) * 0.8 + 0.5 + Real.log (13/12) * 0.4 := by
  simp [baseScore, ageComponent, sexComponent, smokingComponent, bpComponent,
    cholComponent, hdlComponent, diabetesComponent, totalChol, hdlChol, pC6,
    show (55:ℝ)/40 = 11/8 from by norm_num, show (130:ℝ)/120 = 13/12 from by norm_num,
    show (5:ℝ)/5.0 = 1 from by norm_num]

lemma pC6_notOP : ¬useScore2OP pC6 := by norm_num [useScore2OP, pC6]

lemma pC6_fm : regionalFactor "moderate" = 1 := by
  simp [regionalFactor]
  norm_num

lemma pC6_score : riskScore pC6 =
    Real.log (11/8) * 0.8 + 0.5 + Real.log (13/12) * 0.4 := by
  have h0 : riskScore pC6 = baseScore pC6 * regionalFactor "moderate" *
      (if useScore2OP pC6 then 1.2 else 1) := rfl
  rw [h0, pC6_base, if_neg pC6_notOP, mul_one, pC6_fm, mul_one]

lemma pC6_refscore : referenceRiskScore pC6 = Real.log (11/8) * 0.8 + 0.5 := by
  have h0 : referenceRiskScore pC6 =
      (ageComponent pC6 + sexComponent pC6 + 0 + Real.log ((120:ℝ) / 120) * 0.4 +
        Real.log ((5.0:ℝ) / 5.0) * 0.3 + hdlComponent pC6) *
      regionalFactor "moderate" * (if useScore2OP pC6 then 1.2 else 1) := rfl
  rw [h0, if_neg pC6_notOP, mul_one, pC6_fm, mul_one]
  have h1 : ageComponent pC6 = Real.log (11/8) * 0.8 := by
    simp [ageComponent, pC6, show (55:ℝ)/40 = 11/8 from by norm_num]
  have h2 : sexComponent pC6 = 0.5 := by simp [sexComponent, pC6]
  have h3 : hdlComponent pC6 = 0 := by simp [hdlComponent, hdlChol, pC6]
  rw [h1, h2, h3, show (120:ℝ)/120 = 1 by norm_num, show (5.0:ℝ)/5.0 = 1 by norm_num,
    Real.log_one]
  ring

lemma pC6_baseline : baselineRisk pC6 = 0.08 := by
  unfold baselineRisk
  rw [if_neg pC6_notOP]

lemma log_118_gt : (0.318:ℝ) < Real.log (11/8) := by
  have h := exp_rat_lt 318 1000 ((11:ℝ)/8) (by norm_num) (by norm_num) (by norm_num)
    (by norm_num)
  have hc : ((318:ℕ) : ℝ) / ((1000:ℕ) : ℝ) = 0.318 := by norm_num
  rw [hc] at h
  exact (Real.lt_log_iff_exp_lt (by norm_num)).mpr h

lemma log_118_lt : Real.log (11/8) < 0.319 := by
  have h := rat_lt_exp 319 1000 ((11:ℝ)/8) (by norm_num) (by norm_num) (by norm_num)
  have hc : ((319:ℕ) : ℝ) / ((1000:ℕ) : ℝ) = 0.319 := by norm_num
  rw [hc] at h
  exact (Real.log_lt_iff_lt_exp (by norm_num)).mpr h

lemma log_1312_gt : (0.08:ℝ) < Real.log (13/12) := by
  have h := exp_rat_lt 80 1000 ((13:ℝ)/12) (by norm_num) (by norm_num) (by norm_num)
    (by norm_num)
  have hc : ((80:ℕ) : ℝ) / ((1000:ℕ) : ℝ) = 0.08 := by norm_num
  rw [hc] at h
  exact (Real.lt_log_iff_exp_lt (by norm_num)).mpr h

lemma log_1312_lt : Real.log (13/12) < 0.0805 := by
  have h := rat_lt_exp 161 2000 ((13:ℝ)/12) (by norm_num) (by norm_num) (by norm_num)
  have hc : ((161:ℕ) : ℝ) / ((2000:ℕ) : ℝ) = 0.0805 := by norm_num
  rw [hc] at h
  exact (Real.log_lt_iff_lt_exp (by norm_num)).mpr h

lemma pC6_exp_main : (2.194:ℝ) ≤ Real.exp (riskScore pC6) ∧
    Real.exp (riskScore pC6) ≤ 2.1998 := by
  have hS_lo : (0.786:ℝ) ≤ riskScore pC6 := by
    rw [pC6_score]
    have := log_118_gt
    have := log_1312_gt
    linarith
  have hS_hi : riskScore pC6 ≤ 0.788 := by
    rw [pC6_score]
    have := log_118_lt
    have := log_1312_lt
    linarith
  constructor
  · have e1 : (2.194:ℝ) < Real.exp 0.786 := by
      have h := rat_lt_exp 393 500 2.194 (by norm_num) (by norm_num) (by norm_num)
      have hc : ((393:ℕ) : ℝ) / ((500:ℕ) : ℝ) = 0.786 := by norm_num
      rwa [hc] at h
    exact le_of_lt (lt_of_lt_of_le e1 (Real.exp_le_exp.mpr hS_lo))
  · have e2 : Real.exp 0.788 < 2.1998 := by
      have h := exp_rat_lt 394 500 2.1998 (by norm_num) (by norm_num) (by norm_num)
        (by norm_num)
      have hc : ((394:ℕ) : ℝ) / ((500:ℕ) : ℝ) = 0.788 := by norm_num
      rwa [hc] at h
    exact le_of_lt (lt_of_le_of_lt (Real.exp_le_exp.mpr hS_hi) e2)

lemma pC6_exp_ref : (2.125:ℝ) ≤ Real.exp (referenceRiskScore pC6) ∧
    Real.exp (referenceRiskScore pC6) ≤ 2.13 := by
  have hS_lo : (0.754:ℝ) ≤ referenceRiskScore pC6 := by
    rw [pC6_refscore]
    have := log_118_gt
    linarith
  have hS_hi : referenceRiskScore pC6 ≤ 0.7552 := by
    rw [pC6_refscore]
    have := log_118_lt
    linarith
  constructor
  · have e1 : (2.125:ℝ) < Real.exp 0.754 := by
      have h := rat_lt_exp 377 500 2.125 (by norm_num) (by norm_num) (by norm_num)
      have hc : ((377:ℕ) : ℝ) / ((500:ℕ) : ℝ) = 0.754 := by norm_num
      rwa [hc] at h
    exact le_of_lt (lt_of_lt_of_le e1 (Real.exp_le_exp.mpr hS_lo))
  · have e2 : Real.exp 0.756 < 2.13 := by
      have h := exp_rat_lt 378 500 2.13 (by norm_num) (by norm_num) (by norm_num)
        (by norm_num)
      have hc : ((378:ℕ) : ℝ) / ((500:ℕ) : ℝ) = 0.756 := by norm_num
      rwa [hc] at h
    exact le_of_lt (lt_of_le_of_lt (Real.exp_le_exp.mpr (by linarith)) e2)

lemma pC6_raw_window : (16.088:ℝ) ≤ riskPercentageRaw pC6 ∧
    riskPercentageRaw pC6 ≤ 16.154 := by
  have hm := pC6_exp_main
  have ht_lo : (0.17552:ℝ) ≤ Real.exp (riskScore pC6) * baselineRisk pC6 := by
    rw [pC6_baseline]
    nlinarith [hm.1]
  have ht_hi : Real.exp (riskScore pC6) * baselineRisk pC6 ≤ 0.175984 := by
    rw [pC6_baseline]
    nlinarith [hm.2]
  have hw := transform_window (a := 0.17552) (b := 0.175984) (by norm_num) (by norm_num)
    ht_lo ht_hi
  have hraweq : riskPercentageRaw pC6 =
      (1 - Real.exp (-(Real.exp (riskScore pC6) * baselineRisk pC6))) * 100 := by
    unfold riskPercentageRaw
    ring_nf
  rw [hraweq]
  constructor
  · calc (16.088:ℝ) ≤ (0.17552 - 0.175984 ^ 2 / 2 + 0.17552 ^ 3 / 6 -
        5 * 0.175984 ^ 4 / 96) * 100 := by norm_num
      _ ≤ _ := hw.1
  · calc (1 - Real.exp (-(Real.exp (riskScore pC6) * baselineRisk pC6))) * 100 ≤
        (0.175984 - 0.17552 ^ 2 / 2 + 0.175984 ^ 3 / 6 +
          5 * 0.175984 ^ 4 / 96) * 100 := hw.2
      _ ≤ 16.154 := by norm_num

lemma pC6_refraw_window : (15.625:ℝ) ≤ referenceRiskRaw pC6 ∧
    referenceRiskRaw pC6 ≤ 15.682 := by
  have hm := pC6_exp_ref
  have ht_lo : (0.17:ℝ) ≤ Real.exp (referenceRiskScore pC6) * baselineRisk pC6 := by
    rw [pC6_baseline]
    nlinarith [hm.1]
  have ht_hi : Real.exp (referenceRiskScore pC6) * baselineRisk pC6 ≤ 0.1704 := by
    rw [pC6_baseline]
    nlinarith [hm.2]
  have hw := transform_window (a := 0.17) (b := 0.1704) (by norm_num) (by norm_num)
    ht_lo ht_hi
  have hrw : referenceRiskRaw pC6 =
      (1 - Real.exp (-(Real.exp (referenceRiskScore pC6) * baselineRisk pC6))) * 100 := by
    unfold referenceRiskRaw
    ring_nf
  rw [hrw]
  constructor
  · calc (15.625:ℝ) ≤ (0.17 - 0.1704 ^ 2 / 2 + 0.17 ^ 3 / 6 -
        5 * 0.1704 ^ 4 / 96) * 100 := by norm_num
      _ ≤ _ := hw.1
  · calc (1 - Real.exp (-(Real.exp (referenceRiskScore pC6) * baselineRisk pC6))) * 100 ≤
        (0.1704 - 0.17 ^ 2 / 2 + 0.1704 ^ 3 / 6 + 5 * 0.1704 ^ 4 / 96) * 100 := hw.2
      _ ≤ 15.682 := by norm_num

/-- C6: the end-to-end example input of the spec (age 55, male, moderate
region, non-smoker, systolic 130, total cholesterol 5.0 mmol/L, no
HDL/diabetes/BMI) reports algorithm "SCORE2" and heartAge 55. -/
theorem C6_example_end_to_end :
    (calculateSCORE2Risk pC6).algorithm = "SCORE2" ∧
      (calculateSCORE2Risk pC6).heartAge = 55 := by
  constructor
  · show (if useScore2OP pC6 then "SCORE2-OP" else "SCORE2") = "SCORE2"
    rw [if_neg pC6_notOP]
  · show heartAge pC6 = 55
    have hraw := pC6_raw_window
    have hrefraw := pC6_refraw_window
    have hcl : riskPercentageClamped pC6 = riskPercentageRaw pC6 :=
      clamped_eq_raw pC6 (by linarith [hraw.1]) (by linarith [hraw.2])
    have hrefcl : referenceRiskClamped pC6 = referenceRiskRaw pC6 := by
      unfold referenceRiskClamped
      rw [min_eq_right (by linarith [hrefraw.2])]
      exact max_eq_right (by linarith [hrefraw.1])
    have hrefpos : (0:ℝ) < referenceRiskClamped pC6 := by
      rw [hrefcl]
      linarith [hrefraw.1]
    have hq_lo : (1.0258:ℝ) ≤ riskQuot pC6 := by
      unfold riskQuot
      rw [le_div_iff₀ hrefpos, hcl, hrefcl]
      nlinarith [hraw.1, hrefraw.2]
    have hq_hi : riskQuot pC6 ≤ 1.034 := by
      unfold riskQuot
      rw [div_le_iff₀ hrefpos, hcl, hrefcl]
      nlinarith [hraw.2, hrefraw.1]
    unfold heartAge
    have hage : pC6.age = (55:ℝ) := rfl
    rw [hage]
    have hround : round ((55:ℝ) + (riskQuot pC6 - 1) * 10) = 55 := by
      apply round_eq_of_mem <;> push_cast <;> nlinarith
    rw [hround]
    norm_num

lemma log_209_gt : (3.864:ℝ) < Real.log (10000/209) := by
  have h := exp_rat_lt 966 250 ((10000:ℝ)/209) (by norm_num) (by norm_num)
    (by norm_num) (by norm_num)
  have hc : ((966:ℕ) : ℝ) / ((250:ℕ) : ℝ) = 3.864 := by norm_num
  rw [hc] at h
  exact (Real.lt_log_iff_exp_lt (by norm_num)).mpr h

lemma log_209_lt : Real.log (10000/209) < 3.872 := by
  have h := rat_lt_exp 968 250 ((10000:ℝ)/209) (by norm_num) (by norm_num) (by norm_num)
  have hc : ((968:ℕ) : ℝ) / ((250:ℕ) : ℝ) = 3.872 := by norm_num
  rw [hc] at h
  exact (Real.log_lt_iff_lt_exp (by norm_num)).mpr h

lemma pC7_base : baseScore pC7 = -(Real.log (10000/209) * 0.3) := by
  simp [baseScore, ageComponent, sexComponent, smokingComponent, bpComponent,
    cholComponent, hdlComponent, diabetesComponent, totalChol, hdlChol, pC7,
    show (40:ℝ)/40 = 1 from by norm_num, show (120:ℝ)/120 = 1 from by norm_num]
  rw [show (0.1045:ℝ)/5.0 = ((10000:ℝ)/209)⁻¹ from by norm_num, Real.log_inv]
  ring

lemma pC7_notOP : ¬useScore2OP pC7 := by norm_num [useScore2OP, pC7]

lemma pC7_score : riskScore pC7 = -(Real.log (10000/209) * 0.3) := by
  have h0 : riskScore pC7 = baseScore pC7 * regionalFactor "moderate" *
      (if useScore2OP pC7 then 1.2 else 1) := rfl
  rw [h0, pC7_base, if_neg pC7_notOP, mul_one, pC6_fm, mul_one]

lemma pC7_baseline : baselineRisk pC7 = 0.08 := by
  unfold baselineRisk
  rw [if_neg pC7_notOP]

lemma pC7_raw_window : (2.46:ℝ) ≤ riskPercentageRaw pC7 ∧
    riskPercentageRaw pC7 ≤ 2.483 := by
  have hS_lo : (-1.162:ℝ) ≤ riskScore pC7 := by
    rw [pC7_score]
    have := log_209_lt
    linarith
  have hS_hi : riskScore pC7 ≤ -1.158 := by
    rw [pC7_score]
    have := log_209_gt
    linarith
  have e1162 : Real.exp 1.162 < 3.197 := by
    have h := exp_rat_lt 581 500 3.197 (by norm_num) (by norm_num) (by norm_num)
      (by norm_num)
    have hc : ((581:ℕ) : ℝ) / ((500:ℕ) : ℝ) = 1.162 := by norm_num
    rwa [hc] at h
  have e1158 : (3.183:ℝ) < Real.exp 1.158 := by
    have h := rat_lt_exp 579 500 3.183 (by norm_num) (by norm_num) (by norm_num)
    have hc : ((579:ℕ) : ℝ) / ((500:ℕ) : ℝ) = 1.158 := by norm_num
    rwa [hc] at h
  have hexp_lo : (3.197:ℝ)⁻¹ ≤ Real.exp (riskScore pC7) := by
    have h1 : Real.exp (-(1.162:ℝ)) ≤ Real.exp (riskScore pC7) :=
      Real.exp_le_exp.mpr (by linarith)
    have h2 : (3.197:ℝ)⁻¹ < (Real.exp 1.162)⁻¹ :=
      inv_lt_inv_of_pos_lt (Real.exp_pos _) e1162
    have h3 : Real.exp (-(1.162:ℝ)) = (Real.exp 1.162)⁻¹ := Real.exp_neg _
    rw [h3] at h1
    linarith
  have hexp_hi : Real.exp (riskScore pC7) ≤ (3.183:ℝ)⁻¹ := by
    have h1 : Real.exp (riskScore pC7) ≤ Real.exp (-(1.158:ℝ)) :=
      Real.exp_le_exp.mpr (by linarith)
    have h2 : (Real.exp 1.158)⁻¹ < (3.183:ℝ)⁻¹ :=
      inv_lt_inv_of_pos_lt (by norm_num) e1158
    have h3 : Real.exp (-(1.158:ℝ)) = (Real.exp 1.158)⁻¹ := Real.exp_neg _
    rw [h3] at h1
    linarith
  have hinv1 : (0.3127:ℝ) ≤ (3.197:ℝ)⁻¹ := by norm_num
  have hinv2 : (3.183:ℝ)⁻¹ ≤ 0.31417 := by norm_num
  have ht_lo : (0.025016:ℝ) ≤ Real.exp (riskScore pC7) * baselineRisk pC7 := by
    rw [pC7_baseline]
    nlinarith
  have ht_hi : Real.exp (riskScore pC7) * baselineRisk pC7 ≤ 0.0251336 := by
    rw [pC7_baseline]
    nlinarith
  have hw := transform_window (a := 0.025016) (b := 0.0251336) (by norm_num)
    (by norm_num) ht_lo ht_hi
  have hraweq : riskPercentageRaw pC7 =
      (1 - Real.exp (-(Real.exp (riskScore pC7) * baselineRisk pC7))) * 100 := by
    unfold riskPercentageRaw
    ring_nf
  rw [hraweq]
  constructor
  · calc (2.46:ℝ) ≤ (0.025016 - 0.0251336 ^ 2 / 2 + 0.025016 ^ 3 / 6 -
        5 * 0.0251336 ^ 4 / 96) * 100 := by norm_num
      _ ≤ _ := hw.1
  · calc (1 - Real.exp (-(Real.exp (riskScore pC7) * baselineRisk pC7))) * 100 ≤
        (0.0251336 - 0.025016 ^ 2 / 2 + 0.0251336 ^ 3 / 6 +
          5 * 0.0251336 ^ 4 / 96) * 100 := hw.2
      _ ≤ 2.483 := by norm_num

lemma pC7_clamped : riskPercentageClamped pC7 = riskPercentageRaw pC7 :=
  clamped_eq_raw pC7 (by linarith [pC7_raw_window.1]) (by linarith [pC7_raw_window.2])

lemma pC7_field : (calculateSCORE2Risk pC7).riskPercentage = 2.5 := by
  rw [reported_def, pC7_clamped]
  rw [round_eq_of_mem (n := 25) (by push_cast; linarith [pC7_raw_window.1])
    (by push_cast; linarith [pC7_raw_window.2])]
  norm_num

lemma pC7_code_round : round (riskPercentageClamped pC7) = 2 := by
  rw [pC7_clamped]
  exact round_eq_of_mem (by push_cast; linarith [pC7_raw_window.1])
    (by push_cast; linarith [pC7_raw_window.2])

/-- C7 counterexample: the code interpolates `Math.round` of the clamped,
unrounded percentage; at `pC7` that is 2 while `round` of the reported
riskPercentage field (2.5) is 3, so the interpretation string differs
from the one the claim describes. -/
theorem C7_counterexample :
    (calculateSCORE2Risk pC7).interpretation ≠ specInterpretation pC7 := by
  have hL : (calculateSCORE2Risk pC7).interpretation =
      "This means out of 100 " ++ (if "female" = "male" then "men" else "women") ++
        " like you, about " ++ toString ((2:ℤ)) ++
        " will have a heart attack or stroke in the next 10 years." := by
    show generateInterpretation (riskPercentageClamped pC7) pC7.sex = _
    unfold generateInterpretation
    rw [pC7_code_round]
    rfl
  have hspecround : round ((calculateSCORE2Risk pC7).riskPercentage) = 3 := by
    rw [pC7_field]
    exact round_eq_of_mem (by norm_num) (by norm_num)
  have hR : specInterpretation pC7 =
      "This means out of 100 " ++ (if "female" = "male" then "men" else "women") ++
        " like you, about " ++ toString ((3:ℤ)) ++
        " will have a heart attack or stroke in the next 10 years." := by
    unfold specInterpretation
    rw [hspecround]
    rfl
  rw [hL, hR]
  decide

/-- C7 (amended): for every input the interpretation string is exactly
the template with the sex word "men" when sex = male and "women"
otherwise, and the count N = round of the clamped, unrounded risk
percentage (not of the reported riskPercentage field, which is first
rounded to one decimal). -/
theorem C7_interpretation_amended (p : Params) :
    (calculateSCORE2Risk p).interpretation =
      "This means out of 100 " ++ (if p.sex = "male" then "men" else "women") ++
        " like you, about " ++ toString (round (riskPercentageClamped p)) ++
        " will have a heart attack or stroke in the next 10 years." := rfl

/-- C8: for every input, the recommendation list is exactly the fixed
gate order smoking ++ blood pressure ++ cholesterol ++ diabetes ++
category blocks; a smoker always receives the two quit-smoking strings, a
diabetic always the three diabetes strings, and the two category gates
are mutually exclusive. -/
theorem C8_recommendations_structure (p : Params) :
    ((calculateSCORE2Risk p).recommendations =
      smokingRecs p ++ bpRecs p ++ cholRecs p ++ diabetesRecs p ++
        generalRecs (categorizeRisk (riskPercentageClamped p) p.age) ++
        lowRiskRecs (categorizeRisk (riskPercentageClamped p) p.age)) ∧
    (p.smoking = "smoker" →
      "Quit smoking - this is the single most important step to reduce your cardiovascular risk"
          ∈ (calculateSCORE2Risk p).recommendations ∧
      "Consider nicotine replacement therapy or consult your doctor about smoking cessation aids"
          ∈ (calculateSCORE2Risk p).recommendations) ∧
    (p.diabetes = "yes" →
      "Maintain optimal blood glucose control" ∈ (calculateSCORE2Risk p).recommendations ∧
      "Regular monitoring of HbA1c levels" ∈ (calculateSCORE2Risk p).recommendations ∧
      "Consider additional cardiovascular protection medications"
          ∈ (calculateSCORE2Risk p).recommendations) ∧
    ¬(categorizeRisk (riskPercentageClamped p) p.age = "low" ∧
      (categorizeRisk (riskPercentageClamped p) p.age = "moderate" ∨
       categorizeRisk (riskPercentageClamped p) p.age = "high" ∨
       categorizeRisk (riskPercentageClamped p) p.age = "very-high")) := by
  refine ⟨rfl, ?_, ?_, ?_⟩
  · intro h
    have hrec : (calculateSCORE2Risk p).recommendations =
        smokingRecs p ++ (bpRecs p ++ cholRecs p ++ diabetesRecs p ++
          generalRecs (categorizeRisk (riskPercentageClamped p) p.age) ++
          lowRiskRecs (categorizeRisk (riskPercentageClamped p) p.age)) := by
      show generateRecommendations p _ = _
      unfold generateRecommendations
      simp [List.append_assoc]
    rw [hrec]
    unfold smokingRecs
    rw [if_pos h]
    constructor <;> simp
  · intro h
    have hrec : (calculateSCORE2Risk p).recommendations =
        smokingRecs p ++ bpRecs p ++ cholRecs p ++ (diabetesRecs p ++
          (generalRecs (categorizeRisk (riskPercentageClamped p) p.age) ++
          lowRiskRecs (categorizeRisk (riskPercentageClamped p) p.age))) := by
      show generateRecommendations p _ = _
      unfold generateRecommendations
      simp [List.append_assoc]
    rw [hrec]
    unfold diabetesRecs
    rw [if_pos h]
    refine ⟨?_, ?_, ?_⟩ <;> simp
  · rintro ⟨h1, h2⟩
    rcases h2 with h | h | h <;> exact absurd (h1.symm.trans h) (by decide)

/-- Witness for C8 at a smoking, diabetic input: both gated string
families are present. -/
theorem C8_recommendations_structure_witness :
    ("smoker" : String) = "smoker" ∧ ("yes" : String) = "yes" ∧
    "Quit smoking - this is the single most important step to reduce your cardiovascular risk"
      ∈ (calculateSCORE2Risk
          ⟨55, "male", "moderate", "smoker", 130, 5, "mmol/L", none, "yes", none⟩).recommendations ∧
    "Maintain optimal blood glucose control"
      ∈ (calculateSCORE2Risk
          ⟨55, "male", "moderate", "smoker", 130, 5, "mmol/L", none, "yes", none⟩).recommendations := by
  refine ⟨rfl, rfl, ?_, ?_⟩
  · exact ((C8_recommendations_structure
      ⟨55, "male", "moderate", "smoker", 130, 5, "mmol/L", none, "yes", none⟩).2.1 rfl).1
  · exact ((C8_recommendations_structure
      ⟨55, "male", "moderate", "smoker", 130, 5, "mmol/L", none, "yes", none⟩).2.2.1 rfl).1

section C9Support

/-- A gated singleton list is empty exactly when its gate holds. -/
lemma gate_list_empty {c : Prop} [Decidable c] (m : String) :
    ((if c then ([] : List String) else [m]) = [] ↔ c) := by
  split_ifs with h
  · simpa
  · simp [h]

end C9Support

/-- C9: the validator returns, in order, one fixed message per violated
constraint among age ∈ [40,100], sex ∈ {male, female}, region in its four
values, smoking ∈ {smoker, non-smoker}, systolicBP ∈ [80,250] and
totalCholesterol > 0, collecting all violations; the result is empty
exactly when all six constraints hold. -/
theorem C9_validation_structure (p : Params) :
    (validateSCORE2Inputs p =
      (if 40 ≤ p.age ∧ p.age ≤ 100 then [] else
        ["Age must be between 40 and 100 years"]) ++
      (if p.sex = "male" ∨ p.sex = "female" then [] else
        ["Sex must be specified as male or female"]) ++
      (if p.region = "low" ∨ p.region = "moderate" ∨ p.region = "high" ∨
          p.region = "very-high" then [] else
        ["Risk region must be specified"]) ++
      (if p.smoking = "smoker" ∨ p.smoking = "non-smoker" then [] else
        ["Smoking status must be specified"]) ++
      (if 80 ≤ p.systolicBP ∧ p.systolicBP ≤ 250 then [] else
        ["Systolic blood pressure must be between 80 and 250 mmHg"]) ++
      (if 0 < p.totalCholesterol then [] else
        ["Total cholesterol must be specified and greater than 0"])) ∧
    (validateSCORE2Inputs p = [] ↔
      (40 ≤ p.age ∧ p.age ≤ 100) ∧ (p.sex = "male" ∨ p.sex = "female") ∧
      (p.region = "low" ∨ p.region = "moderate" ∨ p.region = "high" ∨
        p.region = "very-high") ∧
      (p.smoking = "smoker" ∨ p.smoking = "non-smoker") ∧
      (80 ≤ p.systolicBP ∧ p.systolicBP ≤ 250) ∧ 0 < p.totalCholesterol) := by
  have hage : (p.age = 0 ∨ p.age < 40 ∨ p.age > 100) ↔
      ¬(40 ≤ p.age ∧ p.age ≤ 100) := by
    constructor
    · rintro (h | h | h) ⟨h1, h2⟩ <;> linarith
    · intro h
      by_cases h40 : 40 ≤ p.age
      · have h100 : ¬p.age ≤ 100 := fun hh => h ⟨h40, hh⟩
        exact Or.inr (Or.inr (not_le.mp h100))
      · exact Or.inr (Or.inl (not_le.mp h40))
  have hsex : (p.sex = "" ∨ ¬(p.sex = "male" ∨ p.sex = "female")) ↔
      ¬(p.sex = "male" ∨ p.sex = "female") := by
    constructor
    · rintro (h | h)
      · rw [h]
        decide
      · exact h
    · exact Or.inr
  have hreg : (p.region = "" ∨ ¬(p.region = "low" ∨ p.region = "moderate" ∨
      p.region = "high" ∨ p.region = "very-high")) ↔
      ¬(p.region = "low" ∨ p.region = "moderate" ∨ p.region = "high" ∨
        p.region = "very-high") := by
    constructor
    · rintro (h | h)
      · rw [h]
        decide
      · exact h
    · exact Or.inr
  have hsmo : (p.smoking = "" ∨ ¬(p.smoking = "smoker" ∨ p.smoking = "non-smoker")) ↔
      ¬(p.smoking = "smoker" ∨ p.smoking = "non-smoker") := by
    constructor
    · rintro (h | h)
      · rw [h]
        decide
      · exact h
    · exact Or.inr
  have hbp : (p.systolicBP = 0 ∨ p.systolicBP < 80 ∨ p.systolicBP > 250) ↔
      ¬(80 ≤ p.systolicBP ∧ p.systolicBP ≤ 250) := by
    constructor
    · rintro (h | h | h) ⟨h1, h2⟩ <;> linarith
    · intro h
      by_cases h80 : 80 ≤ p.systolicBP
      · have h250 : ¬p.systolicBP ≤ 250 := fun hh => h ⟨h80, hh⟩
        exact Or.inr (Or.inr (not_le.mp h250))
      · exact Or.inr (Or.inl (not_le.mp h80))
  have htc : (p.totalCholesterol = 0 ∨ p.totalCholesterol ≤ 0) ↔
      ¬(0 < p.totalCholesterol) := by
    constructor
    · rintro (h | h) <;> [linarith; linarith]
      -- both cases give ¬(0 < tc) by linarith once the goal is unfolded
    · intro h
      exact Or.inr (not_lt.mp h)
  have hmain : validateSCORE2Inputs p =
      (if 40 ≤ p.age ∧ p.age ≤ 100 then [] else
        ["Age must be between 40 and 100 years"]) ++
      (if p.sex = "male" ∨ p.sex = "female" then [] else
        ["Sex must be specified as male or female"]) ++
      (if p.region = "low" ∨ p.region = "moderate" ∨ p.region = "high" ∨
          p.region = "very-high" then [] else
        ["Risk region must be specified"]) ++
      (if p.smoking = "smoker" ∨ p.smoking = "non-smoker" then [] else
        ["Smoking status must be specified"]) ++
      (if 80 ≤ p.systolicBP ∧ p.systolicBP ≤ 250 then [] else
        ["Systolic blood pressure must be between 80 and 250 mmHg"]) ++
      (if 0 < p.totalCholesterol then [] else
        ["Total cholesterol must be specified and greater than 0"]) := by
    unfold validateSCORE2Inputs
    rw [if_congr hage rfl rfl, ite_not, if_congr hsex rfl rfl, ite_not,
      if_congr hreg rfl rfl, ite_not, if_congr hsmo rfl rfl, ite_not,
      if_congr hbp rfl rfl, ite_not, if_congr htc rfl rfl, ite_not]
  refine ⟨hmain, ?_⟩
  rw [hmain]
  simp only [List.append_eq_nil, gate_list_empty]
  simp [and_assoc]

/-- The full result is a congruence in the effective HDL value and the
remaining fields: two parameter values agreeing on every field the
calculator reads, and with equal `hdlChol`, yield equal results. -/
lemma calculateSCORE2Risk_congr_hdl (q r : Params)
    (hage : q.age = r.age) (hsex : q.sex = r.sex) (hreg : q.region = r.region)
    (hsmo : q.smoking = r.smoking) (hbp : q.systolicBP = r.systolicBP)
    (htc : q.totalCholesterol = r.totalCholesterol)
    (hunit : q.cholesterolUnit = r.cholesterolUnit)
    (hdiab : q.diabetes = r.diabetes) (hh : hdlChol q = hdlChol r) :
    calculateSCORE2Risk q = calculateSCORE2Risk r := by
  have hcomp : hdlComponent q = hdlComponent r := by
    unfold hdlComponent
    rw [hh]
  have htot : totalChol q = totalChol r := by
    unfold totalChol
    rw [hunit, htc]
  have hbase : baseScore q = baseScore r := by
    unfold baseScore ageComponent sexComponent smokingComponent bpComponent
      cholComponent diabetesComponent
    rw [hage, hsex, hsmo, hbp, htot, hcomp, hdiab]
  have hOP : useScore2OP q ↔ useScore2OP r := by
    unfold useScore2OP
    rw [hage]
  have hOPite : (if useScore2OP q then (1.2:ℝ) else 1) =
      (if useScore2OP r then (1.2:ℝ) else 1) := if_congr hOP rfl rfl
  have hbaseline : baselineRisk q = baselineRisk r := by
    unfold baselineRisk
    exact if_congr hOP rfl rfl
  have hscore : riskScore q = riskScore r := by
    unfold riskScore
    rw [hbase, hreg, hOPite]
  have hraw : riskPercentageRaw q = riskPercentageRaw r := by
    unfold riskPercentageRaw
    rw [hscore, hbaseline]
  have hcl : riskPercentageClamped q = riskPercentageClamped r := by
    unfold riskPercentageClamped
    rw [hraw]
  have hrefscore : referenceRiskScore q = referenceRiskScore r := by
    unfold referenceRiskScore ageComponent sexComponent
    rw [hage, hsex, hcomp, hreg, hOPite]
  have hrefraw : referenceRiskRaw q = referenceRiskRaw r := by
    unfold referenceRiskRaw
    rw [hrefscore, hbaseline]
  have hrefcl : referenceRiskClamped q = referenceRiskClamped r := by
    unfold referenceRiskClamped
    rw [hrefraw]
  have hquot : riskQuot q = riskQuot r := by
    unfold riskQuot
    rw [hcl, hrefcl]
  have hheart : heartAge q = heartAge r := by
    unfold heartAge
    rw [hage, hquot]
  have hcat : categorizeRisk (riskPercentageClamped q) q.age =
      categorizeRisk (riskPercentageClamped r) r.age := by
    rw [hcl, hage]
  have hrecs : ∀ c, generateRecommendations q c = generateRecommendations r c := by
    intro c
    unfold generateRecommendations smokingRecs bpRecs cholRecs diabetesRecs
    rw [hsmo, hbp, htot, hdiab]
  have hint : generateInterpretation (riskPercentageClamped q) q.sex =
      generateInterpretation (riskPercentageClamped r) r.sex := by
    rw [hcl, hsex]
  have halg : (if useScore2OP q then "SCORE2-OP" else "SCORE2") =
      (if useScore2OP r then "SCORE2-OP" else "SCORE2") := if_congr hOP rfl rfl
  unfold calculateSCORE2Risk
  rw [hcat, hrecs, hint, hheart, hcl, halg]

/-- C10: an absent, null or zero HDL value omits the HDL term in both the
main and the reference (heart-age) computation, so HDL = 0 produces
exactly the same RiskResult as omitting HDL; no logarithm is taken of a
non-positive HDL argument in these cases. -/
theorem C10_hdl_zero_as_absent (p : Params)
    (h : p.hdlCholesterol = none ∨ p.hdlCholesterol = some 0) :
    calculateSCORE2Risk p = calculateSCORE2Risk { p with hdlCholesterol := none } := by
  apply calculateSCORE2Risk_congr_hdl <;> try rfl
  rcases h with h | h <;> simp [hdlChol, h]

/-- Witness for C10 at a concrete input with HDL equal to 0. -/
theorem C10_hdl_zero_as_absent_witness :
    ((⟨55, "male", "moderate", "non-smoker", 130, 5, "mmol/L", some 0, "no",
        none⟩ : Params)).hdlCholesterol = some 0 ∧
    calculateSCORE2Risk
        ⟨55, "male", "moderate", "non-smoker", 130, 5, "mmol/L", some 0, "no", none⟩ =
      calculateSCORE2Risk { (⟨55, "male", "moderate", "non-smoker", 130, 5, "mmol/L",
        some 0, "no", none⟩ : Params) with hdlCholesterol := none } :=
  ⟨rfl, C10_hdl_zero_as_absent _ (Or.inr rfl)⟩
